import Mathlib

/-
Verification development for the Track-to-Measure backend scan engine
(src/src/services/scanService.ts).  The page state observed by the headless
browser is modelled as an explicit Observation record; every regular
expression of the source is modelled as a token pattern scanned by an
executable matcher; the four tag detectors, the CMS detector and the
recommendation generator are translated function by function.
-/

set_option maxRecDepth 100000

/-- Model strings as lists of characters, as the page text is plain text. -/
abbrev Strg := List Char

/-- Shorthand turning a Lean string literal into the model representation. -/
def sl (s : String) : Strg := s.toList

/-- JavaScript `s.includes(pat)` : `pat` occurs somewhere inside `s`. -/
def containsSub : Strg → Strg → Bool
  | [], pat => pat.isEmpty
  | c :: t, pat => pat.isPrefixOf (c :: t) || containsSub t pat

theorem containsSub_iff_infix (s pat : Strg) : containsSub s pat = true ↔ pat <:+: s := by
  induction s with
  | nil =>
    simp [containsSub, List.isEmpty_iff, List.infix_nil]
  | cons c t ih =>
    simp [containsSub, Bool.or_eq_true, ih, List.isPrefixOf_iff_prefix]
    constructor
    · rintro (h | h)
      · exact List.IsPrefix.isInfix h
      · exact h.trans (List.IsSuffix.isInfix (List.suffix_cons c t))
    · intro h
      rcases List.infix_cons_iff.mp h with h | h
      · exact Or.inl h
      · exact Or.inr h

theorem containsSub_trans {s big small : Strg} (h : containsSub s big = true)
    (hsub : small <:+: big) : containsSub s small = true := by
  rw [ containsSub_iff_infix] at *
  exact hsub.trans h

theorem containsSub_false_of_not {s big small : Strg} (h : containsSub s small = false)
    (hsub : small <:+: big) : containsSub s big = false := by
  cases hb : containsSub s big with
  | false => rfl
  | true => rw [containsSub_trans hb hsub] at h; cases h

theorem containsSub_cons_false {c : Char} {t pat : Strg}
    (h : containsSub (c :: t) pat = false) :
    pat.isPrefixOf (c :: t) = false ∧ containsSub t pat = false := by
  have := h
  simp only [containsSub, Bool.or_eq_false_iff] at this
  exact this

/-- JavaScript `Array.includes` style push used all over the source:
an id is appended only when it is not already collected. -/
def pushUnique (acc : List Strg) (x : Strg) : List Strg :=
  if x ∈ acc then acc else acc ++ [x]

/-- Push every element of `xs` in order, keeping first occurrences. -/
def addAll (acc : List Strg) (xs : List Strg) : List Strg :=
  xs.foldl pushUnique acc

/-- Insertion-ordered deduplication, the behaviour of a JavaScript `Set`
spread back into an array. -/
def dedupFirst (xs : List Strg) : List Strg := addAll [] xs

theorem mem_pushUnique {acc : List Strg} {x y : Strg}
    (h : y ∈ pushUnique acc x) : y ∈ acc ∨ y = x := by
  by_cases hx : x ∈ acc
  · simp [pushUnique, hx] at h; exact Or.inl h
  · simp [pushUnique, hx] at h
    rcases h with h | h
    · exact Or.inl h
    · exact Or.inr h

theorem mem_addAll {acc : List Strg} {xs : List Strg} {y : Strg}
    (h : y ∈ addAll acc xs) : y ∈ acc ∨ y ∈ xs := by
  induction xs generalizing acc with
  | nil => exact Or.inl h
  | cons a t ih =>
    rcases @ih (pushUnique acc a) h with h2 | h2
    · rcases mem_pushUnique h2 with h3 | h3
      · exact Or.inl h3
      · exact Or.inr (by simp [h3])
    · exact Or.inr (by simp [h2])

/-- One token of a modelled regular expression: a literal piece or a greedy
character-class repetition with a minimum count and an optional maximum. -/
inductive Tok where
  | lit : Strg → Tok
  | cls : (Char → Bool) → Nat → Option Nat → Tok

/-- Match a token sequence at the start of `s`; returns the matched text and
the rest.  Classes are greedy, which is adequate because in every modelled
pattern a class is followed by text disjoint from the class. -/
def matchToks : List Tok → Strg → Option (Strg × Strg)
  | [], s => some ([], s)
  | Tok.lit l :: ts, s =>
      if l.isPrefixOf s then
        match matchToks ts (s.drop l.length) with
        | some (m, r) => some (l ++ m, r)
        | none => none
      else none
  | Tok.cls p mn mx :: ts, s =>
      let run0 := s.takeWhile p
      let run := match mx with
        | none => run0
        | some k => run0.take k
      if mn ≤ run.length then
        match matchToks ts (s.drop run.length) with
        | some (m, r) => some (run ++ m, r)
        | none => none
      else none

/-- First alternative that matches at this position (regex alternation order). -/
def matchAlts : List (List Tok) → Strg → Option (Strg × Strg)
  | [], _ => none
  | a :: rest, s =>
      match matchToks a s with
      | some res => some res
      | none => matchAlts rest s

/-- Fueled scan: leftmost, non-overlapping matches, continuing after each
match, advancing one character on failure — the `matchAll` semantics of a
global JavaScript regex.  The fuel is instantiated with the string length,
which bounds the scan since every step consumes at least one character. -/
def scanGo (alts : List (List Tok)) : Nat → Strg → List Strg
  | 0, _ => []
  | Nat.succ f, s =>
      match s with
      | [] => []
      | _ :: rest =>
          match matchAlts alts s with
          | some (m, r) => if m.isEmpty then scanGo alts f rest else m :: scanGo alts f r
          | none => scanGo alts f rest

/-- All matches of an alternation over `s` (JavaScript `matchAll`). -/
def scanMulti (alts : List (List Tok)) (s : Strg) : List Strg :=
  scanGo alts s.length s

/-- All matches of a single pattern over `s`. -/
def scanOne (pat : List Tok) (s : Strg) : List Strg := scanMulti [pat] s

/-- First match of a pattern (JavaScript `String.match` without the g flag). -/
def firstMatch (pat : List Tok) (s : Strg) : Option Strg := (scanOne pat s).head?

/-- JavaScript `s.replace(regex, "")` for a non-global regex: remove the
first match, keep everything else. -/
def replaceFirstPat (pat : List Tok) : Strg → Strg
  | [] => []
  | c :: rest =>
      match matchToks pat (c :: rest) with
      | some (m, r) => if m.isEmpty then c :: rest else r
      | none => c :: replaceFirstPat pat rest

/-- JavaScript `s.replace(literal, "")`: remove the first occurrence of a
literal substring. -/
def replaceFirstLit (l : Strg) : Strg → Strg
  | [] => []
  | c :: rest =>
      if l.isPrefixOf (c :: rest) then (c :: rest).drop l.length
      else c :: replaceFirstLit l rest

theorem matchToks_lit_none {l : Strg} {ts : List Tok} {s : Strg}
    (h : l.isPrefixOf s = false) : matchToks (Tok.lit l :: ts) s = none := by
  simp [matchToks, h]

theorem matchAlts_none {alts : List (List Tok)} {s : Strg}
    (h : ∀ a ∈ alts, matchToks a s = none) : matchAlts alts s = none := by
  induction alts with
  | nil => rfl
  | cons a rest ih =>
    simp only [matchAlts, h a (by simp)]
    exact ih (fun b hb => h b (by simp [hb]))

/-- If every alternative begins with a literal that does not occur in `s`,
the scan finds nothing. -/
theorem scanGo_nil_of_not_contains (alts : List (List Tok)) :
    ∀ fuel s, (∀ a ∈ alts, ∃ l ts, a = Tok.lit l :: ts ∧ containsSub s l = false) →
    scanGo alts fuel s = [] := by
  intro fuel
  induction fuel with
  | zero => intro s _; rfl
  | succ f ih =>
    intro s hs
    match s with
    | [] => rfl
    | c :: rest =>
      have hnone : matchAlts alts (c :: rest) = none := by
        apply matchAlts_none
        intro a ha
        obtain ⟨l, ts, rfl, hc⟩ := hs a ha
        exact matchToks_lit_none (containsSub_cons_false hc).1
      simp only [scanGo, hnone]
      apply ih
      intro a ha
      obtain ⟨l, ts, rfl, hc⟩ := hs a ha
      exact ⟨l, ts, rfl, (containsSub_cons_false hc).2⟩

theorem scanMulti_nil_of_not_contains {alts : List (List Tok)} {s : Strg}
    (h : ∀ a ∈ alts, ∃ l ts, a = Tok.lit l :: ts ∧ containsSub s l = false) :
    scanMulti alts s = [] :=
  scanGo_nil_of_not_contains alts s.length s h

theorem scanOne_nil_of_not_contains {pat : List Tok} {s : Strg} {l : Strg} {ts : List Tok}
    (hpat : pat = Tok.lit l :: ts) (h : containsSub s l = false) :
    scanOne pat s = [] := by
  apply scanMulti_nil_of_not_contains
  intro a ha
  simp at ha
  exact ⟨l, ts, by rw [ha, hpat], h⟩

/-- Character class `[A-Z0-9]` used by the GTM / GA4 / MC id grammars. -/
def isUpAl (c : Char) : Bool := ('A' ≤ c && c ≤ 'Z') || ('0' ≤ c && c ≤ '9')

/-- Character class `\d`. -/
def isDigitC (c : Char) : Bool := '0' ≤ c && c ≤ '9'

/-- Character class `[\w\d-]` of the AW id grammar. -/
def isWordDash (c : Char) : Bool :=
  ('A' ≤ c && c ≤ 'Z') || ('a' ≤ c && c ≤ 'z') || isDigitC c || c == '_' || c == '-'

/-- Character class `[?&]` introducing a URL query parameter. -/
def isQAmp (c : Char) : Bool := c == '?' || c == '&'

/-- Character class matching a single or a double quote. -/
def isQuoteC (c : Char) : Bool := c == '\x27' || c == '"'

/-- Approximation of `\s` covering the whitespace characters that occur in
page scripts. -/
def isSpaceC (c : Char) : Bool := c == ' ' || c == '\t' || c == '\n' || c == '\r'

/-- Character class `[^&]`. -/
def notAmp (c : Char) : Bool := c != '&'

/-- Regex `GTM-[A-Z0-9]+`. -/
def gtmPat : List Tok := [Tok.lit (sl "GTM-"), Tok.cls isUpAl 1 none]

/-- Regex `G-[A-Z0-9]+`. -/
def ga4Pat : List Tok := [Tok.lit (sl "G-"), Tok.cls isUpAl 1 none]

/-- Regex `[?&]tid=G-[A-Z0-9]+` of the GA4 network listener. -/
def tidG4Pat : List Tok :=
  [Tok.cls isQAmp 1 (some 1), Tok.lit (sl "tid=G-"), Tok.cls isUpAl 1 none]

/-- Regex `id=GTM-[A-Z0-9]+` applied to script and iframe URLs. -/
def gtmIdUrlPat : List Tok := [Tok.lit (sl "id=GTM-"), Tok.cls isUpAl 1 none]

/-- Regex `id=G-[A-Z0-9]+` applied to gtag script URLs. -/
def ga4IdUrlPat : List Tok := [Tok.lit (sl "id=G-"), Tok.cls isUpAl 1 none]

/-- Regex `[?&]id=MC-[A-Z0-9]+` of the GTM destination listener. -/
def mcIdUrlPat : List Tok :=
  [Tok.cls isQAmp 1 (some 1), Tok.lit (sl "id=MC-"), Tok.cls isUpAl 1 none]

/-- Regex `[?&]gtm=([^&]+)` of the GTM destination listener. -/
def gtmParamUrlPat : List Tok :=
  [Tok.cls isQAmp 1 (some 1), Tok.lit (sl "gtm="), Tok.cls notAmp 1 none]

/-- Regex `AW-[\w\d-]+`. -/
def awPat : List Tok := [Tok.lit (sl "AW-"), Tok.cls isWordDash 1 none]

/-- Regex `[?&]id=AW-[\w\d-]+` of the Google Ads network listener. -/
def awIdUrlPat : List Tok :=
  [Tok.cls isQAmp 1 (some 1), Tok.lit (sl "id=AW-"), Tok.cls isWordDash 1 none]

/-- Regex `[?&]conversion_id=(\d+)` of the Google Ads network listener. -/
def convIdUrlPat : List Tok :=
  [Tok.cls isQAmp 1 (some 1), Tok.lit (sl "conversion_id="), Tok.cls isDigitC 1 none]

/-- Regex `[?&]id=(\d{10,16})` of the Meta Pixel network listener. -/
def pixelIdUrlPat : List Tok :=
  [Tok.cls isQAmp 1 (some 1), Tok.lit (sl "id="), Tok.cls isDigitC 10 (some 16)]

/-- Regex `[?&]id=` used with `replace` to strip a query marker. -/
def idMarkerPat : List Tok := [Tok.cls isQAmp 1 (some 1), Tok.lit (sl "id=")]

/-- Regex: google_conversion_id, optional spaces, an equals sign, optional
spaces, then optionally quoted digits. -/
def convAssignPat : List Tok :=
  [Tok.lit (sl "google_conversion_id"), Tok.cls isSpaceC 0 none, Tok.lit (sl "="),
   Tok.cls isSpaceC 0 none, Tok.cls isQuoteC 0 (some 1), Tok.cls isDigitC 1 none,
   Tok.cls isQuoteC 0 (some 1)]

/-- Regex: conversion_id, optional spaces, a colon, optional spaces, then
optionally quoted digits. -/
def convColonPat : List Tok :=
  [Tok.lit (sl "conversion_id"), Tok.cls isSpaceC 0 none, Tok.lit (sl ":"),
   Tok.cls isSpaceC 0 none, Tok.cls isQuoteC 0 (some 1), Tok.cls isDigitC 1 none,
   Tok.cls isQuoteC 0 (some 1)]

/-- Regex: a gtag config call quoting an AW conversion id. -/
def gtagAwPat : List Tok :=
  [Tok.lit (sl "gtag("), Tok.cls isQuoteC 1 (some 1), Tok.lit (sl "config"),
   Tok.cls isQuoteC 1 (some 1), Tok.lit (sl ","), Tok.cls isSpaceC 0 none,
   Tok.cls isQuoteC 1 (some 1), Tok.lit (sl "AW-"), Tok.cls isWordDash 1 none,
   Tok.cls isQuoteC 1 (some 1), Tok.lit (sl ")")]

/-- Regex: google_conversion_id, optional spaces, a colon, optional spaces,
then optionally quoted digits. -/
def googleConvColonPat : List Tok :=
  [Tok.lit (sl "google_conversion_id"), Tok.cls isSpaceC 0 none, Tok.lit (sl ":"),
   Tok.cls isSpaceC 0 none, Tok.cls isQuoteC 0 (some 1), Tok.cls isDigitC 1 none,
   Tok.cls isQuoteC 0 (some 1)]

/-- The five inline-script patterns of `detectGoogleAds`, in source order. -/
def adsScriptPats : List (List Tok) :=
  [convAssignPat, awPat, convColonPat, gtagAwPat, googleConvColonPat]

/-- Regex: conversion_id, an equals sign and optionally quoted digits — the
second alternative of the full-page Google Ads scan. -/
def convHtmlEqPat : List Tok :=
  [Tok.lit (sl "conversion_id"), Tok.cls isSpaceC 0 none, Tok.lit (sl "="),
   Tok.cls isSpaceC 0 none, Tok.cls isQuoteC 0 (some 1), Tok.cls isDigitC 1 none,
   Tok.cls isQuoteC 0 (some 1)]

/-- The two-way alternation of the full-page Google Ads scan. -/
def adsHtmlAlts : List (List Tok) := [awPat, convHtmlEqPat]

mutual

/-- Model of a JavaScript value pushed into the page `dataLayer` or stored in
a global: a string, number, boolean, array, arguments object or plain object. -/
inductive JVal where
  | str : Strg → JVal
  | num : Int → JVal
  | bool : Bool → JVal
  | arr : JList → JVal
  | args : JList → JVal
  | obj : JEntries → JVal

inductive JList where
  | nil : JList
  | cons : JVal → JList → JList

inductive JEntries where
  | nil : JEntries
  | cons : Strg → JVal → JEntries → JEntries

end

def JList.toList : JList → List JVal
  | JList.nil => []
  | JList.cons v rest => v :: JList.toList rest

def JEntries.lookup : JEntries → Strg → Option JVal
  | JEntries.nil, _ => none
  | JEntries.cons k v rest, key => if k = key then some v else JEntries.lookup rest key

def JList.get : JList → Nat → Option JVal
  | JList.nil, _ => none
  | JList.cons v _, 0 => some v
  | JList.cons _ rest, Nat.succ n => JList.get rest n

def JList.len : JList → Nat
  | JList.nil => 0
  | JList.cons _ rest => JList.len rest + 1

mutual

/-- JavaScript `String(v)` on a modelled value. -/
def stringOf : JVal → Strg
  | JVal.str s => s
  | JVal.num n => sl (toString n)
  | JVal.bool b => if b then sl "true" else sl "false"
  | JVal.arr xs => joinComma xs
  | JVal.args _ => sl "[object Arguments]"
  | JVal.obj _ => sl "[object Object]"

/-- `Array.prototype.toString` joins element strings with commas. -/
def joinComma : JList → Strg
  | JList.nil => []
  | JList.cons v JList.nil => stringOf v
  | JList.cons v rest => stringOf v ++ ',' :: joinComma rest

end

/-- JSON string escaping for the characters that need it here. -/
def escJson : Strg → Strg
  | [] => []
  | c :: t =>
      if c == '"' || c == '\\' then '\\' :: c :: escJson t
      else c :: escJson t

mutual

/-- JavaScript `JSON.stringify(v)` on a modelled value. -/
def jsonOf : JVal → Strg
  | JVal.str s => '"' :: (escJson s ++ ['"'])
  | JVal.num n => sl (toString n)
  | JVal.bool b => if b then sl "true" else sl "false"
  | JVal.arr xs => '[' :: (jsonList xs ++ [']'])
  | JVal.args xs => '\x7b' :: (jsonArgsFields 0 xs ++ ['\x7d'])
  | JVal.obj fs => '\x7b' :: (jsonFields fs ++ ['\x7d'])

def jsonList : JList → Strg
  | JList.nil => []
  | JList.cons v JList.nil => jsonOf v
  | JList.cons v rest => jsonOf v ++ ',' :: jsonList rest

def jsonArgsFields : Nat → JList → Strg
  | _, JList.nil => []
  | i, JList.cons v JList.nil => '"' :: (sl (toString i) ++ '"' :: ':' :: jsonOf v)
  | i, JList.cons v rest =>
      '"' :: (sl (toString i) ++ '"' :: ':' :: jsonOf v) ++ ',' :: jsonArgsFields (i + 1) rest

def jsonFields : JEntries → Strg
  | JEntries.nil => []
  | JEntries.cons k v JEntries.nil => '"' :: (escJson k ++ '"' :: ':' :: jsonOf v)
  | JEntries.cons k v rest =>
      '"' :: (escJson k ++ '"' :: ':' :: jsonOf v) ++ ',' :: jsonFields rest

end

/-- JavaScript `typeof v === "object"` (arrays, arguments and objects). -/
def isObjTyped : JVal → Bool
  | JVal.arr _ => true
  | JVal.args _ => true
  | JVal.obj _ => true
  | _ => false

/-- JavaScript `Array.isArray(v)`. -/
def isArrayJ : JVal → Bool
  | JVal.arr _ => true
  | _ => false

/-- Property access `v.name` for a named property. -/
def getField : JVal → Strg → Option JVal
  | JVal.obj fs, key => fs.lookup key
  | _, _ => none

/-- Property access `v[i]` for a numeric index: arrays and arguments index
elements, strings index single characters, objects look up the decimal key. -/
def idx : JVal → Nat → Option JVal
  | JVal.arr xs, n => xs.get n
  | JVal.args xs, n => xs.get n
  | JVal.str s, n => (s.get? n).map (fun c => JVal.str [c])
  | JVal.obj fs, n => fs.lookup (sl (toString n))
  | _, _ => none

/-- JavaScript `v.length` where the source compares it with a number:
arrays, arguments and strings have a length; objects only via a numeric
`length` property. -/
def lenOf : JVal → Option Nat
  | JVal.arr xs => some xs.len
  | JVal.args xs => some xs.len
  | JVal.str s => some s.length
  | JVal.obj fs =>
      match fs.lookup (sl "length") with
      | some (JVal.num (Int.ofNat n)) => some n
      | _ => none
  | _ => none

/-- JavaScript truthiness of a modelled value. -/
def truthy : JVal → Bool
  | JVal.str s => !s.isEmpty
  | JVal.num n => n != 0
  | JVal.bool b => b
  | _ => true

/-- Truthiness of a possibly missing property. -/
def truthyO : Option JVal → Bool
  | none => false
  | some v => truthy v

/-- Strict equality `v === "text"` between a property value and a string. -/
def beqStr : Option JVal → Strg → Bool
  | some (JVal.str s), t => s = t
  | _, _ => false

/-- Whether `v[i]` exists and is a string. -/
def isStrIdx (v : JVal) (n : Nat) : Bool :=
  match idx v n with
  | some (JVal.str _) => true
  | _ => false

/-- ASCII `toLowerCase`. -/
def lowerStr (s : Strg) : Strg := s.map Char.toLower

/-- Any element of the list contains the given substring: models
`document.querySelectorAll("script[src*=...]").length > 0` style checks
over the collected attribute values. -/
def anyContains (xs : List Strg) (pat : Strg) : Bool :=
  xs.any (fun s => containsSub s pat)

/-- The evidence captured from one page visit: serialized markup, script
sources and inline bodies, link and iframe attributes, meta tags, matched
CSS selectors, the `dataLayer` queue, the outbound request URLs, and the
probed global variables of the tracking vendors and platforms. -/
structure Observation where
  markup : Strg := []
  scriptSrcs : List Strg := []
  scriptBodies : List Strg := []
  linkHrefs : List Strg := []
  iframeSrcs : List Strg := []
  metaTags : List (Strg × Strg) := []
  selectorHits : List Strg := []
  bodyClassName : Strg := []
  dataLayer : Option JList := none
  networkEvents : List Strg := []
  gtagDefined : Bool := false
  fbqDefined : Bool := false
  shopifyDefined : Bool := false
  wixBiSession : Bool := false
  wixPerformance : Bool := false
  wixEmbedsAPI : Bool := false
  wpDefined : Bool := false
  wpApiSettingsDefined : Bool := false
  wcDefined : Bool := false
  googleTrackConversion : Bool := false
  googleConversionIdG : Bool := false
  googleConversionLabelG : Bool := false
  googleTagParamsDefined : Bool := false
  googleTagManagerDefined : Bool := false
  gtmGlobalJson : Strg := []

/-- Whether a generic CSS selector matched in the captured document. -/
def Observation.sel (o : Observation) (s : String) : Bool :=
  decide (sl s ∈ o.selectorHits)

/-- The `TagType` enum of src/src/utils/types.ts. -/
inductive TagType where
  | googleTagManager
  | ga4
  | googleAds
  | metaPixel
  | linkedin
  | pinterest
  | snapchat
  | twitterPixel
  | tiktok
deriving DecidableEq

/-- The `TagStatus` enum of src/src/utils/types.ts. -/
inductive TagStatus where
  | CONNECTED
  | MISCONFIGURED
  | INCOMPLETE
  | NOT_FOUND
  | ERROR
deriving DecidableEq

/-- The `TagResult` record returned per technology. -/
structure TagResult where
  name : TagType
  isPresent : Bool
  status : TagStatus
  id : Option Strg := none
  ids : List Strg := []
  details : Option Strg := none
  statusReason : Strg := []
deriving DecidableEq

/-- The `CmsResult` record of the CMS detector. -/
structure CmsResult where
  name : Strg
  confidence : ℚ
deriving DecidableEq

/-- Regex `[?&]tid=` used with `replace` by the GA4 listener. -/
def tidMarkerPat : List Tok := [Tok.cls isQAmp 1 (some 1), Tok.lit (sl "tid=")]

/-- What the request listener of `scanUrl` adds to `ga4Requests` for one URL. -/
def ga4Capture (url : Strg) : List Strg :=
  if containsSub url (sl "google-analytics.com/g/collect") ||
     containsSub url (sl "google-analytics.com/j/collect") ||
     containsSub url (sl "analytics.google.com") ||
     containsSub url (sl "googletagmanager.com/gtag") then
    match firstMatch tidG4Pat url with
    | some m => [replaceFirstPat tidMarkerPat m]
    | none =>
        if containsSub url (sl "G-") then
          match firstMatch ga4Pat url with
          | some m => [m]
          | none => []
        else []
  else []

/-- What the request listener adds to `gtmRequests` for one URL.  The gtm
query parameter is the capture group after the five characters `[?&]gtm=`. -/
def gtmCapture (url : Strg) : List Strg :=
  if containsSub url (sl "googletagmanager.com") then
    (match firstMatch gtmPat url with
     | some m => [m]
     | none => []) ++
    (if containsSub url (sl "googletagmanager.com/gtag/destination") then
       (match firstMatch gtmParamUrlPat url with
        | some m => [sl "GTM-PARAM:" ++ m.drop 5]
        | none => []) ++
       (match firstMatch mcIdUrlPat url with
        | some m => [replaceFirstPat idMarkerPat m]
        | none => []) ++
       [sl "GTM-DETECTED-VIA-DESTINATION"]
     else [])
  else []

/-- What the request listener adds to `googleAdsRequests` for one URL.
The digits of a `conversion_id=` capture start after fifteen characters. -/
def adsCapture (url : Strg) : List Strg :=
  if containsSub url (sl "googleadservices.com") ||
     containsSub url (sl "google.com/pagead") ||
     containsSub url (sl "googlesyndication.com") ||
     containsSub url (sl "doubleclick.net") ||
     containsSub url (sl "google-analytics.com/collect") ||
     containsSub url (sl "googletagmanager.com/gtag") then
    match (firstMatch awIdUrlPat url).orElse
        (fun _ => (firstMatch awPat url).orElse (fun _ => firstMatch convIdUrlPat url)) with
    | some m =>
        let awId :=
          if (sl "conversion_id=").isPrefixOf m then sl "AW-" ++ m.drop 15
          else replaceFirstPat idMarkerPat m
        [awId]
    | none => []
  else []

/-- What the request listener adds to `metaPixelRequests` for one URL.  The
pixel id capture starts after the four characters `[?&]id=`. -/
def metaCapture (url : Strg) : List Strg :=
  if containsSub url (sl "facebook.com/tr") ||
     containsSub url (sl "connect.facebook.net") ||
     containsSub url (sl "fbevents.js") then
    match firstMatch pixelIdUrlPat url with
    | some m => [m.drop 4]
    | none => [sl "META_PIXEL_DETECTED_VIA_NETWORK"]
  else []

/-- The deduplicated GA4 ids seen in network traffic during the scan. -/
def ga4NetOf (o : Observation) : List Strg :=
  dedupFirst (o.networkEvents.map ga4Capture).flatten

/-- The deduplicated GTM entries seen in network traffic during the scan. -/
def gtmNetOf (o : Observation) : List Strg :=
  dedupFirst (o.networkEvents.map gtmCapture).flatten

/-- The deduplicated Google Ads entries seen in network traffic. -/
def adsNetOf (o : Observation) : List Strg :=
  dedupFirst (o.networkEvents.map adsCapture).flatten

/-- The deduplicated Meta Pixel entries seen in network traffic. -/
def metaNetOf (o : Observation) : List Strg :=
  dedupFirst (o.networkEvents.map metaCapture).flatten

/-- The id the targeted fallback search of `scanUrl` looks for. -/
def aw318 : Strg := sl "AW-318511509"

/-- The Google Ads network list after the targeted `AW-318511509` fallback
search of `scanUrl` (page content check plus global variable check). -/
def adsNetFull (o : Observation) : List Strg :=
  let base := adsNetOf o
  if aw318 ∈ base then base
  else
    let b1 := if containsSub o.markup aw318 then pushUnique base aw318 else base
    let dataLayerStr :=
      match o.dataLayer with
      | some dl => jsonOf (JVal.arr dl)
      | none => []
    let tagManagerStr := if o.googleTagManagerDefined then o.gtmGlobalJson else []
    let checkGlobals :=
      (o.googleTagParamsDefined || o.googleTagManagerDefined || o.dataLayer.isSome) &&
      (containsSub dataLayerStr aw318 || containsSub tagManagerStr aw318 ||
       containsSub o.markup aw318)
    if checkGlobals then pushUnique b1 aw318 else b1

namespace GTM

/-- `script[src*="googletagmanager.com/gtm.js"]` or the noscript iframe. -/
def hasGtmScript (o : Observation) : Bool :=
  anyContains o.scriptSrcs (sl "googletagmanager.com/gtm.js") ||
  anyContains o.iframeSrcs (sl "googletagmanager.com/ns.html")

/-- Markup mention of a GTM loader URL with id. -/
def hasGtmInit (o : Observation) : Bool :=
  containsSub o.markup (sl "googletagmanager.com/gtm.js?id=GTM-")

/-- Markup mention of the GTM bootstrap snippet, either quote style. -/
def hasGtmInitFunction (o : Observation) : Bool :=
  containsSub o.markup (sl "(window,document,\x27script\x27,\x27dataLayer\x27,\x27GTM-") ||
  containsSub o.markup (sl "(window,document,\"script\",\"dataLayer\",\"GTM-")

/-- Overall GTM presence signal including network detection. -/
def hasGtm (o : Observation) (networkIds : List Strg) : Bool :=
  hasGtmScript o || hasGtmInit o || hasGtmInitFunction o || !networkIds.isEmpty

/-- The items of the page `dataLayer`, empty if it is not an array. -/
def entries (o : Observation) : List JVal := (o.dataLayer.getD JList.nil).toList

def hasDataLayer (o : Observation) : Bool := o.dataLayer.isSome

def hasActiveDataLayer (o : Observation) : Bool :=
  hasDataLayer o && !(entries o).isEmpty

/-- The Shopify-style patterns looked for in one dataLayer item. -/
def isShopifyItem (it : JVal) : Bool :=
  let s := stringOf it
  containsSub s (sl "Arguments") ||
  (isObjTyped it && beqStr (getField it (sl "event")) (sl "gtm.js")) ||
  (isObjTyped it && beqStr (getField it (sl "event")) (sl "gtm.dom")) ||
  (isObjTyped it && beqStr (getField it (sl "event")) (sl "gtm.load")) ||
  containsSub s (sl "Shopify") ||
  containsSub s (sl "shopify") ||
  containsSub s (sl "cart") ||
  containsSub s (sl "product_variant_id") ||
  containsSub s (sl "checkout") ||
  (isObjTyped it && truthyO (getField it (sl "pageType")) &&
   (beqStr (getField it (sl "pageType")) (sl "product") ||
    beqStr (getField it (sl "pageType")) (sl "collection") ||
    beqStr (getField it (sl "pageType")) (sl "cart") ||
    beqStr (getField it (sl "pageType")) (sl "page")))

/-- The Wix-style patterns looked for in one dataLayer item. -/
def isWixItem (it : JVal) : Bool :=
  let s := stringOf it
  containsSub s (sl "wix") ||
  containsSub s (sl "Wix") ||
  (isObjTyped it && truthyO (getField it (sl "siteName")) &&
   (match getField it (sl "siteName") with
    | some (JVal.str sn) => containsSub sn (sl "wixsite.com")
    | _ => false)) ||
  (isObjTyped it && truthyO (getField it (sl "pageId")) &&
   truthyO (getField it (sl "pageType")))

/-- The single scan loop breaks at the first item matching either style;
Shopify is tested first inside the iteration. -/
def firstStyled (o : Observation) : Option JVal :=
  (entries o).find? (fun it => isShopifyItem it || isWixItem it)

def hasShopifyGtm (o : Observation) : Bool :=
  match firstStyled o with
  | some it => isShopifyItem it
  | none => false

def hasWixGtm (o : Observation) : Bool :=
  match firstStyled o with
  | some it => !isShopifyItem it && isWixItem it
  | none => false

/-- A dataLayer object item carrying the `gtm.js` activation event. -/
def isGtmJsEvent (it : JVal) : Bool :=
  truthy it && isObjTyped it && beqStr (getField it (sl "event")) (sl "gtm.js")

/-- A positional dataLayer entry whose first element is `js` or `config`. -/
def isPositionalCmd (it : JVal) : Bool :=
  truthy it &&
  (match lenOf it with
   | some n => decide (2 ≤ n)
   | none => false) &&
  (beqStr (idx it 0) (sl "js") || beqStr (idx it 0) (sl "config"))

def hasGtmActivation (o : Observation) : Bool :=
  hasActiveDataLayer o &&
  ((entries o).any isGtmJsEvent || (entries o).any isPositionalCmd)

/-- The GTM container ids collected from network ids, inline scripts, script
and iframe URLs, and finally the full markup, in source order. -/
def gtmIdsOf (o : Observation) (networkIds : List Strg) : List Strg :=
  let ids0 := networkIds.filter (fun id => (sl "GTM-").isPrefixOf id)
  if hasGtm o networkIds || hasShopifyGtm o || hasWixGtm o then
    let ids1 := o.scriptBodies.foldl
      (fun acc b => if containsSub b (sl "GTM-") then addAll acc (scanOne gtmPat b) else acc)
      ids0
    let ids2 := o.scriptSrcs.foldl
      (fun acc src =>
        if containsSub src (sl "googletagmanager.com/gtm.js") then
          match firstMatch gtmIdUrlPat src with
          | some m => pushUnique acc (replaceFirstLit (sl "id=") m)
          | none => acc
        else acc)
      ids1
    let ids3 := o.iframeSrcs.foldl
      (fun acc src =>
        if containsSub src (sl "googletagmanager.com/ns.html") then
          match firstMatch gtmIdUrlPat src with
          | some m => pushUnique acc (replaceFirstLit (sl "id=") m)
          | none => acc
        else acc)
      ids2
    if ids3.isEmpty || hasShopifyGtm o || hasWixGtm o then
      addAll ids3 (scanOne gtmPat o.markup)
    else ids3
  else ids0

def mcIdsOf (networkIds : List Strg) : List Strg :=
  networkIds.filter (fun id => (sl "MC-").isPrefixOf id)

def hasGtmParams (networkIds : List Strg) : Bool :=
  networkIds.any (fun id => (sl "GTM-PARAM:").isPrefixOf id)

def hasDestinationRequest (networkIds : List Strg) : Bool :=
  decide (sl "GTM-DETECTED-VIA-DESTINATION" ∈ networkIds)

/-- The GTM status ladder with its three overriding upgrades, returning the
internal status string together with its reason. -/
def statusPair (o : Observation) (networkIds : List Strg) : Strg × Strg :=
  let hasNetworkGtm := !networkIds.isEmpty
  let gtmIds := gtmIdsOf o networkIds
  let mcIds := mcIdsOf networkIds
  let base :=
    if hasNetworkGtm || hasGtm o networkIds || hasShopifyGtm o || hasWixGtm o ||
       hasActiveDataLayer o then
      if (gtmIds.isEmpty && !hasShopifyGtm o && !hasWixGtm o) && !hasNetworkGtm &&
         mcIds.isEmpty && !hasDestinationRequest networkIds && !hasGtmParams networkIds then
        (sl "Incomplete Setup",
         sl "GTM script detected but no GTM-XXXXX ID found. Make sure your GTM container ID is properly configured.")
      else if !hasDataLayer o && !hasGtmActivation o && !hasShopifyGtm o && !hasWixGtm o &&
              !hasNetworkGtm && !hasDestinationRequest networkIds && !hasGtmParams networkIds then
        (sl "Misconfigured",
         sl "GTM ID found but dataLayer is missing or not properly initialized. Check that dataLayer is declared before GTM loads.")
      else
        (sl "Connected", sl "GTM is properly implemented and activated.")
    else
      (sl "Not Found", sl "No Google Tag Manager implementation detected.")
  let s1 :=
    if hasShopifyGtm o && hasActiveDataLayer o && base.1 ≠ sl "Connected" then
      (sl "Connected", sl "GTM detected through Shopify-specific implementation.")
    else base
  let s2 :=
    if hasWixGtm o && hasActiveDataLayer o && s1.1 ≠ sl "Connected" then
      (sl "Connected", sl "GTM detected through Wix-specific implementation.")
    else s1
  if (hasNetworkGtm || hasDestinationRequest networkIds || hasGtmParams networkIds ||
      !mcIds.isEmpty) && s2.1 ≠ sl "Connected" then
    (sl "Connected",
     if hasDestinationRequest networkIds then sl "GTM detected through destination URL activity."
     else if !mcIds.isEmpty then sl "GTM detected through MC format IDs."
     else if hasGtmParams networkIds then sl "GTM detected through GTM parameters in network requests."
     else sl "GTM detected through network activity.")
  else s2

/-- The status-string to enum mapping of the GTM result assembly. -/
def mapStatus (st : Strg) : TagStatus :=
  if st = sl "Connected" then TagStatus.CONNECTED
  else if st = sl "Misconfigured" then TagStatus.MISCONFIGURED
  else if st = sl "Incomplete Setup" then TagStatus.INCOMPLETE
  else TagStatus.NOT_FOUND

end GTM

/-- `detectGoogleTagManager` without the catch path. -/
def detectGoogleTagManager (o : Observation) (networkIds : List Strg) : TagResult :=
  let gtmIds := GTM.gtmIdsOf o networkIds
  let mcIds := GTM.mcIdsOf networkIds
  let finalIds := if !mcIds.isEmpty then gtmIds ++ mcIds else gtmIds
  let stp := GTM.statusPair o networkIds
  { name := TagType.googleTagManager,
    isPresent := GTM.hasGtm o networkIds || GTM.hasShopifyGtm o || GTM.hasWixGtm o ||
      GTM.hasActiveDataLayer o || !networkIds.isEmpty ||
      GTM.hasDestinationRequest networkIds || GTM.hasGtmParams networkIds || !mcIds.isEmpty,
    status := GTM.mapStatus stp.1,
    id := finalIds.head?,
    ids := finalIds,
    details := some stp.1,
    statusReason := stp.2 }

/-- The items of the page `dataLayer`, empty when it is absent. -/
def dlEntries (o : Observation) : List JVal := (o.dataLayer.getD JList.nil).toList

namespace GA4

/-- GA4 script tag or gtag setup markers. -/
def hasGa4Script (o : Observation) : Bool :=
  anyContains o.scriptSrcs (sl "google-analytics.com/analytics.js") ||
  anyContains o.scriptSrcs (sl "googletagmanager.com/gtag/js") ||
  anyContains o.scriptSrcs (sl "google-analytics.com/g/collect") ||
  containsSub o.markup (sl "gtag(\x27config\x27, \x27G-") ||
  containsSub o.markup (sl "gtag(\"config\", \"G-") ||
  containsSub o.markup (sl "destination?id=G-")

/-- GTM presence as checked inside the GA4 detector. -/
def hasGtm (o : Observation) : Bool :=
  anyContains o.scriptSrcs (sl "googletagmanager.com/gtm.js") ||
  containsSub o.markup (sl "GTM-")

/-- The three id extractions applied to one dataLayer item: positional
config call, JSON scan of plain objects, and string representation scan. -/
def dlCollect (acc : List Strg) (it : JVal) : List Strg :=
  let acc1 :=
    if truthy it &&
       (match lenOf it with
        | some n => decide (2 ≤ n)
        | none => false) &&
       beqStr (idx it 0) (sl "config") && isStrIdx it 1 then
      match idx it 1 with
      | some (JVal.str s) => if (sl "G-").isPrefixOf s then pushUnique acc s else acc
      | _ => acc
    else acc
  let acc2 :=
    if truthy it && isObjTyped it && !isArrayJ it then
      addAll acc1 (scanOne ga4Pat (jsonOf it))
    else acc1
  let s2 := stringOf it
  if containsSub s2 (sl "G-") then addAll acc2 (scanOne ga4Pat s2) else acc2

/-- All GA4 measurement ids: network ids first, then dataLayer, inline
scripts, the full markup, and gtag script URLs, in source order. -/
def ga4IdsOf (o : Observation) (networkIds : List Strg) : List Strg :=
  let ids1 := (dlEntries o).foldl dlCollect networkIds
  let ids2 := o.scriptBodies.foldl
    (fun acc b => if containsSub b (sl "G-") then addAll acc (scanOne ga4Pat b) else acc)
    ids1
  let ids3 := addAll ids2 (scanOne ga4Pat o.markup)
  o.scriptSrcs.foldl
    (fun acc src =>
      if containsSub src (sl "googletagmanager.com/gtag/js?id=G-") then
        match firstMatch ga4IdUrlPat src with
        | some m => pushUnique acc (replaceFirstLit (sl "id=") m)
        | none => acc
      else acc)
    ids3

/-- The GA4 status ladder: network ids win, then any found id connects. -/
def statusPair (o : Observation) (networkIds : List Strg) : Strg × Strg :=
  let ga4Ids := ga4IdsOf o networkIds
  let hasGtagFunction := o.gtagDefined
  let hasGtag := hasGtagFunction
  if !networkIds.isEmpty then
    (sl "Connected", sl "GA4 tracking requests detected. Data is being sent to Google Analytics.")
  else if !ga4Ids.isEmpty then
    if hasGtag then
      (sl "Connected", sl "GA4 configuration found with proper gtag implementation.")
    else if hasGtagFunction then
      (sl "Connected", sl "GA4 tracking ID found with gtag function available.")
    else
      (sl "Connected", sl "GA4 tracking ID found in the page code.")
  else if hasGa4Script o then
    (sl "Incomplete Setup",
     sl "GA4 script detected but no measurement ID (G-XXXXXXXX) found. Add your GA4 measurement ID to complete the setup.")
  else if hasGtm o then
    (sl "Incomplete Setup",
     sl "Google Tag Manager detected but no GA4 configuration found. Add a GA4 tag in your GTM container.")
  else
    (sl "Not Found", sl "No Google Analytics 4 implementation detected.")

/-- The status-string to enum mapping of the GA4 result assembly. -/
def mapStatus (st : Strg) : TagStatus :=
  if st = sl "Connected" then TagStatus.CONNECTED
  else if st = sl "Misconfigured" then TagStatus.MISCONFIGURED
  else if st = sl "Incomplete Setup" then TagStatus.INCOMPLETE
  else TagStatus.NOT_FOUND

end GA4

/-- `detectGA4` without the catch path. -/
def detectGA4 (o : Observation) (networkIds : List Strg) : TagResult :=
  let ga4Ids := GA4.ga4IdsOf o networkIds
  let stp := GA4.statusPair o networkIds
  { name := TagType.ga4,
    isPresent := !ga4Ids.isEmpty || GA4.hasGa4Script o || decide (stp.1 ≠ sl "Not Found"),
    status := GA4.mapStatus stp.1,
    id := ga4Ids.head?,
    ids := ga4Ids,
    statusReason := stp.2 }

mutual

/-- The recursive `checkProperties` walk of `detectGoogleAds`: string values
are scanned for AW ids, object-typed values are walked recursively, other
values are skipped. -/
def checkPropsVal : JVal → List Strg
  | JVal.str s => scanOne awPat s
  | JVal.obj fs => checkPropsEntries fs
  | JVal.arr xs => checkPropsList xs
  | JVal.args xs => checkPropsList xs
  | _ => []

def checkPropsEntries : JEntries → List Strg
  | JEntries.nil => []
  | JEntries.cons _ v rest => checkPropsVal v ++ checkPropsEntries rest

def checkPropsList : JList → List Strg
  | JList.nil => []
  | JList.cons v rest => checkPropsVal v ++ checkPropsList rest

end

namespace GAds

/-- `script[src*="googleadservices.com/pagead/conversion"]`. -/
def hasGads (o : Observation) : Bool :=
  anyContains o.scriptSrcs (sl "googleadservices.com/pagead/conversion")

/-- The five inline-script patterns applied to one script body; full-string
digit matches are rewritten to AW form, then the id marker is stripped. -/
def scriptIds (acc : List Strg) (b : Strg) : List Strg :=
  adsScriptPats.foldl
    (fun acc2 pat =>
      (scanOne pat b).foldl
        (fun a m =>
          let awId := if !m.isEmpty && m.all isDigitC then sl "AW-" ++ m else m
          let awId2 := replaceFirstPat idMarkerPat awId
          if !awId2.isEmpty then pushUnique a awId2 else a)
        acc2)
    acc

/-- Ids collected from network, inline scripts and the full-page scan,
before the dataLayer walk. -/
def gadsIdsPreDl (o : Observation) (networkIds : List Strg) : List Strg :=
  let ids1 := o.scriptBodies.foldl scriptIds networkIds
  (scanMulti adsHtmlAlts o.markup).foldl
    (fun a m =>
      let awId := if !m.isEmpty && m.all isDigitC then sl "AW-" ++ m else m
      if !awId.isEmpty then pushUnique a awId else a)
    ids1

/-- All collected Google Ads candidates after the dataLayer walk. -/
def gadsIdsOf (o : Observation) (networkIds : List Strg) : List Strg :=
  (dlEntries o).foldl
    (fun acc it => if truthy it && isObjTyped it then addAll acc (checkPropsVal it) else acc)
    (gadsIdsPreDl o networkIds)

/-- The `foundInDataLayer` flag: set exactly when the dataLayer walk pushed
a new id. -/
def foundInDataLayer (o : Observation) (networkIds : List Strg) : Bool :=
  decide ((gadsIdsOf o networkIds).length ≠ (gadsIdsPreDl o networkIds).length)

/-- An object item whose `event` string mentions a conversion. -/
def isConversionEvent (it : JVal) : Bool :=
  truthy it && isObjTyped it &&
  (match getField it (sl "event") with
   | some (JVal.str s) => !s.isEmpty && containsSub (lowerStr s) (sl "conversion")
   | _ => false)

def hasConversionEvent (o : Observation) : Bool :=
  (dlEntries o).any isConversionEvent

def hasGtm (o : Observation) : Bool :=
  anyContains o.scriptSrcs (sl "googletagmanager.com/gtm.js") ||
  containsSub o.markup (sl "GTM-")

def hasGtagAds (o : Observation) : Bool := o.gtagDefined

def hasGoogleAdsGlobals (o : Observation) : Bool :=
  o.googleTrackConversion || o.googleConversionIdG || o.googleConversionLabelG

/-- Deduplicate and keep only `AW-` prefixed candidates. -/
def uniqueGadsIds (o : Observation) (networkIds : List Strg) : List Strg :=
  (dedupFirst (gadsIdsOf o networkIds)).filter (fun id => (sl "AW-").isPrefixOf id)

def isPresentB (o : Observation) (networkIds : List Strg) : Bool :=
  !networkIds.isEmpty || !(uniqueGadsIds o networkIds).isEmpty || hasGads o ||
  foundInDataLayer o networkIds || hasGtagAds o || hasGoogleAdsGlobals o

/-- The Google Ads status ladder, including the final GTM adjustment. -/
def statusPair (o : Observation) (networkIds : List Strg) : Strg × Strg :=
  let base :=
    if isPresentB o networkIds then
      if (uniqueGadsIds o networkIds).isEmpty && networkIds.isEmpty then
        (sl "Incomplete Setup",
         sl "Google Ads script detected but no conversion ID (AW-XXXXXXXXX) found. Add your Google Ads conversion ID to complete the setup.")
      else if hasConversionEvent o || hasGoogleAdsGlobals o || hasGtagAds o ||
              !networkIds.isEmpty then
        (sl "Connected",
         sl "Google Ads tracking is properly implemented and sending conversion data.")
      else
        (sl "Incomplete",
         sl "Google Ads ID found but no conversion events detected. Make sure conversion tracking is properly configured.")
    else
      (sl "Not Found", sl "No Google Ads implementation detected.")
  if base.1 = sl "Not Found" && hasGtm o && containsSub o.markup (sl "googleadservices") then
    (sl "Incomplete Setup",
     sl "Google Tag Manager detected with references to Google Ads services. Configure a Google Ads conversion tag in your GTM container.")
  else base

/-- The status-string to enum mapping of the Google Ads result assembly:
note it recognizes the `Incomplete` string, not `Incomplete Setup`. -/
def mapStatus (st : Strg) : TagStatus :=
  if st = sl "Connected" then TagStatus.CONNECTED
  else if st = sl "Misconfigured" then TagStatus.MISCONFIGURED
  else if st = sl "Incomplete" then TagStatus.INCOMPLETE
  else TagStatus.NOT_FOUND

end GAds

/-- `detectGoogleAds` without the catch path. -/
def detectGoogleAds (o : Observation) (networkIds : List Strg) : TagResult :=
  let ids := GAds.uniqueGadsIds o networkIds
  let stp := GAds.statusPair o networkIds
  { name := TagType.googleAds,
    isPresent := GAds.isPresentB o networkIds,
    status := GAds.mapStatus stp.1,
    id := ids.head?,
    ids := ids,
    statusReason := stp.2 }

namespace Meta

def hasMetaPixelScript (o : Observation) : Bool :=
  anyContains o.scriptSrcs (sl "connect.facebook.net") ||
  anyContains o.scriptSrcs (sl "facebook.net/en_US/fbevents.js") ||
  anyContains o.scriptSrcs (sl "fbevents.js") ||
  o.sel "noscript[src*=facebook.com/tr]"

def hasFbqFunction (o : Observation) : Bool := o.fbqDefined

def hasFbqInit (o : Observation) : Bool :=
  containsSub o.markup (sl "fbq(\"init\",") ||
  containsSub o.markup (sl "fbq(\x27init\x27,") ||
  containsSub o.markup (sl "fbq(\"set\",") ||
  containsSub o.markup (sl "fbq(\x27set\x27,") ||
  containsSub o.markup (sl "fbq.queue.push") ||
  containsSub o.markup (sl "fbq.callMethod.apply")

def hasFbqInDataLayer (o : Observation) : Bool :=
  (dlEntries o).any
    (fun it =>
      truthy it &&
      (containsSub (jsonOf it) (sl "fbq") || containsSub (jsonOf it) (sl "facebook") ||
       containsSub (jsonOf it) (sl "FB_PIXEL")))

def hasTrackingImage (o : Observation) : Bool :=
  o.sel "noscript img[src*=facebook.com/tr]" ||
  containsSub o.markup (sl "facebook.com/tr?id=")

def hasFBConnect (o : Observation) : Bool :=
  anyContains o.scriptSrcs (sl "sdk.js") &&
  (containsSub o.markup (sl "FB.init") || containsSub o.markup (sl "fbAsyncInit"))

def hasMetaPixel (o : Observation) (networkIds : List Strg) : Bool :=
  hasMetaPixelScript o || hasFbqFunction o || hasFbqInit o || hasFbqInDataLayer o ||
  hasTrackingImage o || hasFBConnect o || !networkIds.isEmpty

/-- The collected pixel ids: network entries minus the no-id marker.  The
production detector extracts no inline ids. -/
def pixelIds (networkIds : List Strg) : List Strg :=
  networkIds.filter (fun id => decide (id ≠ sl "META_PIXEL_DETECTED_VIA_NETWORK"))

def hasGtm (o : Observation) : Bool :=
  anyContains o.scriptSrcs (sl "googletagmanager.com/gtm.js") ||
  containsSub o.markup (sl "GTM-")

/-- The Meta Pixel status ladder with its two upgrades. -/
def statusPair (o : Observation) (networkIds : List Strg) : Strg × Strg :=
  let hasNetworkPixel := !networkIds.isEmpty
  let base :=
    if hasMetaPixel o networkIds then
      if (pixelIds networkIds).isEmpty && !hasNetworkPixel then
        (sl "Incomplete Setup",
         sl "Meta Pixel code detected but no Pixel ID found. Add your Meta Pixel ID to complete the setup.")
      else if hasFbqFunction o || hasFbqInit o || hasFbqInDataLayer o ||
              hasTrackingImage o || hasNetworkPixel then
        (sl "Connected",
         sl "Meta Pixel is properly implemented with initialization and tracking capabilities.")
      else
        (sl "Misconfigured",
         sl "Meta Pixel ID found but implementation may be incomplete. Check that fbq() is properly initialized.")
    else if hasGtm o && containsSub o.markup (sl "facebook") then
      (sl "Incomplete Setup",
       sl "GTM is present with references to Facebook. Configure a Meta Pixel tag in your GTM container.")
    else
      (sl "Not Found", sl "No Meta Pixel implementation detected.")
  let s1 :=
    if !(pixelIds networkIds).isEmpty && base.1 ≠ sl "Connected" then
      (sl "Connected",
       sl "Meta Pixel ID found and appears to be implemented. Tracking should be functional.")
    else base
  if decide (sl "META_PIXEL_DETECTED_VIA_NETWORK" ∈ networkIds) && s1.1 ≠ sl "Connected" then
    (sl "Connected",
     sl "Meta Pixel detected through network requests. Tracking appears to be functional.")
  else s1

/-- The status-string to enum mapping of the Meta Pixel result assembly. -/
def mapStatus (st : Strg) : TagStatus :=
  if st = sl "Connected" then TagStatus.CONNECTED
  else if st = sl "Misconfigured" then TagStatus.MISCONFIGURED
  else if st = sl "Incomplete Setup" then TagStatus.INCOMPLETE
  else TagStatus.NOT_FOUND

end Meta

/-- `detectMetaPixel` without the catch path. -/
def detectMetaPixel (o : Observation) (networkIds : List Strg) : TagResult :=
  let ids := Meta.pixelIds networkIds
  let stp := Meta.statusPair o networkIds
  { name := TagType.metaPixel,
    isPresent := Meta.hasMetaPixel o networkIds,
    status := Meta.mapStatus stp.1,
    id := ids.head?,
    ids := ids,
    statusReason := stp.2 }

/-- The GTM catch-block result. -/
def gtmErrorResult : TagResult :=
  { name := TagType.googleTagManager, isPresent := false, status := TagStatus.ERROR,
    details := some (sl "Error during detection"),
    statusReason := sl "An error occurred during detection. Please try again." }

/-- The GA4 catch-block result. -/
def ga4ErrorResult : TagResult :=
  { name := TagType.ga4, isPresent := false, status := TagStatus.ERROR,
    statusReason := sl "An error occurred during detection. Please try again." }

/-- The Google Ads catch-block result. -/
def gadsErrorResult : TagResult :=
  { name := TagType.googleAds, isPresent := false, status := TagStatus.ERROR,
    statusReason := sl "An error occurred during detection. Please try again." }

/-- The Meta Pixel catch-block result. -/
def metaErrorResult : TagResult :=
  { name := TagType.metaPixel, isPresent := false, status := TagStatus.ERROR,
    statusReason := sl "An error occurred during detection. Please try again." }

/-- The engine per technology: the detector over the observation with its
captured network list. -/
def runGtm (o : Observation) : TagResult := detectGoogleTagManager o (gtmNetOf o)

def runGA4 (o : Observation) : TagResult := detectGA4 o (ga4NetOf o)

def runAds (o : Observation) : TagResult := detectGoogleAds o (adsNetFull o)

def runMeta (o : Observation) : TagResult := detectMetaPixel o (metaNetOf o)

/-- `detectTags` with a fault flag per technology: a raised internal fault
inside one detector is caught by that detector and replaced by its
catch-block result, leaving the other three untouched. -/
def detectTagsF (o : Observation) (fGtm fGa4 fAds fMeta : Bool) : List TagResult :=
  [if fGtm then gtmErrorResult else runGtm o,
   if fGa4 then ga4ErrorResult else runGA4 o,
   if fAds then gadsErrorResult else runAds o,
   if fMeta then metaErrorResult else runMeta o]

/-- `generateRecommendations`: one suggestion per missing technology, in
fixed order, phrased by whether GTM itself was found. -/
def generateRecommendations (tags : List TagResult) : List Strg :=
  let hasGtm :=
    (tags.find? (fun t => decide (t.name = TagType.googleTagManager) && t.isPresent)).isSome
  let recs0 :=
    if !hasGtm then
      [sl "Implement Google Tag Manager to centralize all your marketing tags in one place"]
    else []
  let hasGa4 := (tags.find? (fun t => decide (t.name = TagType.ga4) && t.isPresent)).isSome
  let recs1 := recs0 ++
    (if !hasGa4 then
      [(if hasGtm then sl "Add" else sl "Implement") ++
        sl " Google Analytics 4 to track website traffic and user behavior"]
     else [])
  let hasMetaPixel :=
    (tags.find? (fun t => decide (t.name = TagType.metaPixel) && t.isPresent)).isSome
  let recs2 := recs1 ++
    (if !hasMetaPixel then
      [(if hasGtm then sl "Add" else sl "Implement") ++
        sl " Meta Pixel to track conversions from Facebook and Instagram ads"]
     else [])
  let hasGads :=
    (tags.find? (fun t => decide (t.name = TagType.googleAds) && t.isPresent)).isSome
  recs2 ++
    (if !hasGads then
      [(if hasGtm then sl "Add" else sl "Implement") ++
        sl " Google Ads conversion tracking to optimize your ad campaigns"]
     else [])

namespace Cms

/-- Unique WordPress indicators (weight 3). -/
def wordpressHigh (o : Observation) : Bool :=
  anyContains o.linkHrefs (sl "/wp-content/") ||
  anyContains o.scriptSrcs (sl "/wp-includes/") ||
  o.sel "body.wp-admin" || o.sel "#wpadminbar" || o.sel ".wp-block-"

/-- WordPress paths and strings (weight 2). -/
def wordpressMed (o : Observation) : Bool :=
  containsSub o.markup (sl "/wp-content/") ||
  containsSub o.markup (sl "/wp-includes/") ||
  containsSub o.markup (sl "/wp-json/") ||
  containsSub o.markup (sl "wp-emoji") ||
  anyContains o.linkHrefs (sl "wp-")

/-- WordPress globals and body class (weight 3). -/
def wordpressGlob (o : Observation) : Bool :=
  o.wpDefined || o.wpApiSettingsDefined || o.wcDefined ||
  containsSub o.bodyClassName (sl "wordpress")

def wordpressScore (o : Observation) : Nat :=
  (if wordpressHigh o then 3 else 0) + (if wordpressMed o then 2 else 0) +
  (if wordpressGlob o then 3 else 0)

/-- High confidence Shopify indicators (weight 3). -/
def shopifyHigh (o : Observation) : Bool :=
  o.shopifyDefined || containsSub o.markup (sl "cdn.shopify.com") ||
  containsSub o.markup (sl "Shopify.theme")

/-- Medium confidence Shopify indicators (weight 2). -/
def shopifyMed (o : Observation) : Bool :=
  containsSub o.markup (sl "shopify-section") ||
  containsSub o.markup (sl "shopify-payment-button") ||
  containsSub o.markup (sl "/apps/checkout") ||
  containsSub o.markup (sl "myshopify.com") ||
  containsSub o.markup (sl ".myshopify.com") ||
  anyContains o.linkHrefs (sl "shopify") ||
  anyContains o.scriptSrcs (sl "shopify")

/-- Lower confidence Shopify indicators (weight 1). -/
def shopifyLow (o : Observation) : Bool :=
  containsSub o.markup (sl "shopify-custom-currency") ||
  containsSub o.markup (sl "shopify-buy") ||
  o.sel ".shopify-buy" || o.sel "[data-shopify]"

def shopifyScore (o : Observation) : Nat :=
  (if shopifyHigh o then 3 else 0) + (if shopifyMed o then 2 else 0) +
  (if shopifyLow o then 1 else 0)

/-- High confidence Wix indicators (weight 3). -/
def wixHigh (o : Observation) : Bool :=
  o.wixBiSession || o.wixPerformance || o.wixEmbedsAPI ||
  containsSub o.markup (sl "static.wixstatic.com")

/-- Medium confidence Wix indicators (weight 2). -/
def wixMed (o : Observation) : Bool :=
  containsSub o.markup (sl "X-Wix-") ||
  containsSub o.markup (sl "static.parastorage.com") ||
  containsSub o.markup (sl "wixsite.com") ||
  containsSub o.markup (sl "wixcode-") ||
  o.sel "[data-mesh-id]"

/-- Lower confidence Wix indicators (weight 1). -/
def wixLow (o : Observation) : Bool :=
  containsSub o.markup (sl "wix-") ||
  containsSub o.markup (sl "wix-instantsearch") ||
  containsSub o.markup (sl "wix-dropdown") ||
  o.sel "img[src*=wix]" || o.sel "[data-wix]" || o.sel "[data-hook*=wix]"

def wixScore (o : Observation) : Nat :=
  (if wixHigh o then 3 else 0) + (if wixMed o then 2 else 0) +
  (if wixLow o then 1 else 0)

/-- The generator meta-tag loop: the first generator tag whose content
names a platform, or a long enough first word at confidence 0.7. -/
def generatorScan : List (Strg × Strg) → Option CmsResult
  | [] => none
  | (nm, content) :: rest =>
      if nm = sl "generator" ∧ !content.isEmpty then
        if containsSub content (sl "WordPress") then some ⟨sl "WordPress", 9/10⟩
        else if containsSub content (sl "Shopify") then some ⟨sl "Shopify", 9/10⟩
        else if containsSub content (sl "Wix") then some ⟨sl "Wix", 9/10⟩
        else if containsSub content (sl "Squarespace") then some ⟨sl "Squarespace", 9/10⟩
        else if containsSub content (sl "Webflow") then some ⟨sl "Webflow", 9/10⟩
        else if containsSub content (sl "Drupal") then some ⟨sl "Drupal", 9/10⟩
        else if containsSub content (sl "Joomla") then some ⟨sl "Joomla", 9/10⟩
        else
          let platformName := content.takeWhile (fun c => c ≠ ' ')
          if !platformName.isEmpty && platformName.length > 2 then
            some ⟨platformName, 7/10⟩
          else generatorScan rest
      else generatorScan rest

def drupalCond (o : Observation) : Bool :=
  containsSub o.markup (sl "drupal.") ||
  containsSub o.markup (sl "/sites/default/files/") ||
  containsSub o.markup (sl "/sites/all/") ||
  containsSub o.markup (sl "drupalSettings") ||
  o.sel "body.path-frontpage"

def joomlaCond (o : Observation) : Bool :=
  containsSub o.markup (sl "/media/jui/") ||
  containsSub o.markup (sl "/media/system/") ||
  containsSub o.markup (sl "joomla") ||
  containsSub o.markup (sl "Joomla!")

end Cms

/-- `detectCms`: weighted scoring with early returns, then the generator
meta tags, then Drupal and Joomla markers, then low-confidence fallbacks. -/
def detectCms (o : Observation) : Option CmsResult :=
  if Cms.wordpressScore o ≥ 5 then some ⟨sl "WordPress", 95/100⟩
  else if Cms.shopifyScore o ≥ 3 then some ⟨sl "Shopify", 9/10⟩
  else if Cms.wixScore o ≥ 3 then some ⟨sl "Wix", 9/10⟩
  else
    match Cms.generatorScan o.metaTags with
    | some r => some r
    | none =>
        if Cms.drupalCond o then some ⟨sl "Drupal", 9/10⟩
        else if Cms.joomlaCond o then some ⟨sl "Joomla", 9/10⟩
        else if Cms.wordpressScore o > 0 then
          some ⟨sl "WordPress", if Cms.wordpressScore o ≥ 2 then 8/10 else 6/10⟩
        else if Cms.shopifyScore o > 0 then
          some ⟨sl "Shopify", if Cms.shopifyScore o ≥ 2 then 7/10 else 1/2⟩
        else if Cms.wixScore o > 0 then
          some ⟨sl "Wix", if Cms.wixScore o ≥ 2 then 7/10 else 1/2⟩
        else none

/-- The classification part of the scan result: per-technology results, the
optional CMS name, and the recommendations. -/
structure ScanResultM where
  tags : List TagResult
  cms : Option Strg
  recommendations : List Strg

/-- The classification phase of `scanUrl`, over an already captured
observation, with a fault flag per technology. -/
def assembleScanResult (o : Observation) (includeCms : Bool)
    (fGtm fGa4 fAds fMeta : Bool) : ScanResultM :=
  let tagResults := detectTagsF o fGtm fGa4 fAds fMeta
  { tags := tagResults,
    cms := if includeCms then (detectCms o).map (fun r => r.name) else none,
    recommendations := generateRecommendations tagResults }

theorem ga4_net_nonempty_connected (o : Observation) {net : List Strg} (h : net ≠ []) :
    (detectGA4 o net).status = TagStatus.CONNECTED := by
  obtain ⟨a, t, rfl⟩ := List.exists_cons_of_ne_nil h
  cases hg : o.gtagDefined <;>
    simp [detectGA4, GA4.statusPair, GA4.mapStatus, hg]

theorem gtm_net_nonempty_connected (o : Observation) {net : List Strg} (h : net ≠ []) :
    (detectGoogleTagManager o net).status = TagStatus.CONNECTED := by
  obtain ⟨a, t, rfl⟩ := List.exists_cons_of_ne_nil h
  simp [detectGoogleTagManager, GTM.statusPair, GTM.mapStatus]

theorem ads_net_nonempty_connected (o : Observation) {net : List Strg} (h : net ≠ []) :
    (detectGoogleAds o net).status = TagStatus.CONNECTED := by
  obtain ⟨a, t, rfl⟩ := List.exists_cons_of_ne_nil h
  have hne : sl "Connected" ≠ sl "Not Found" := by decide
  simp [detectGoogleAds, GAds.statusPair, GAds.mapStatus, GAds.isPresentB, hne]

theorem meta_net_nonempty_connected (o : Observation) {net : List Strg} (h : net ≠ []) :
    (detectMetaPixel o net).status = TagStatus.CONNECTED := by
  obtain ⟨a, t, rfl⟩ := List.exists_cons_of_ne_nil h
  simp [detectMetaPixel, Meta.statusPair, Meta.mapStatus, Meta.hasMetaPixel]

/-- Observation whose only network event embeds a GA4-pattern identifier in
a URL that matches none of the listener host filters. -/
def obsC1x : Observation :=
  { networkEvents := [sl "https://cdn.example.com/lib.js?v=G-ABC123"] }

/-- C1 counterexample: an Observation whose networkEvents contain a URL
embedding an identifier matching the GA4 pattern `G-[A-Z0-9]+`, yet the GA4
result is not Connected, because the request listener only records
identifiers on URLs that also match its per-technology host filters. -/
theorem c1_counterexample :
    scanOne ga4Pat (sl "https://cdn.example.com/lib.js?v=G-ABC123") = [sl "G-ABC123"] ∧
    sl "https://cdn.example.com/lib.js?v=G-ABC123" ∈ obsC1x.networkEvents ∧
    (runGA4 obsC1x).status ≠ TagStatus.CONNECTED :=
  ⟨by decide, by decide, by decide⟩

/-- C1 (amended): whenever the scanUrl request listener captures at least
one network entry for a technology — a URL matching the technology host
filter and embedding a matching identifier or activity marker — that
technology status is forced to Connected, regardless of every other
Observation field. -/
theorem c1_network_forces_connected (o : Observation) :
    (ga4NetOf o ≠ [] → (runGA4 o).status = TagStatus.CONNECTED) ∧
    (gtmNetOf o ≠ [] → (runGtm o).status = TagStatus.CONNECTED) ∧
    (adsNetFull o ≠ [] → (runAds o).status = TagStatus.CONNECTED) ∧
    (metaNetOf o ≠ [] → (runMeta o).status = TagStatus.CONNECTED) :=
  ⟨fun h => ga4_net_nonempty_connected o h,
   fun h => gtm_net_nonempty_connected o h,
   fun h => ads_net_nonempty_connected o h,
   fun h => meta_net_nonempty_connected o h⟩

/-- One captured network URL per technology. -/
def obsC1w : Observation :=
  { networkEvents :=
      [sl "https://www.googletagmanager.com/gtm.js?id=GTM-AAA1",
       sl "https://www.google-analytics.com/g/collect?v=2&tid=G-ABC123",
       sl "https://www.googleadservices.com/pagead/conversion/?id=AW-318511509",
       sl "https://www.facebook.com/tr?id=1234567890&ev=PageView"] }

/-- C1 witness: all four premises are satisfiable and the theorem applies. -/
theorem c1_witness :
    ga4NetOf obsC1w ≠ [] ∧ (runGA4 obsC1w).status = TagStatus.CONNECTED ∧
    gtmNetOf obsC1w ≠ [] ∧ (runGtm obsC1w).status = TagStatus.CONNECTED ∧
    adsNetFull obsC1w ≠ [] ∧ (runAds obsC1w).status = TagStatus.CONNECTED ∧
    metaNetOf obsC1w ≠ [] ∧ (runMeta obsC1w).status = TagStatus.CONNECTED :=
  ⟨by decide, (c1_network_forces_connected obsC1w).1 (by decide),
   by decide, (c1_network_forces_connected obsC1w).2.1 (by decide),
   by decide, (c1_network_forces_connected obsC1w).2.2.1 (by decide),
   by decide, (c1_network_forces_connected obsC1w).2.2.2 (by decide)⟩

/-- Markup with a GA4 measurement id and nothing else. -/
def obsC2ga4 : Observation := { markup := sl "G-ABC123" }

/-- Markup referencing a GTM loader with container id, no dataLayer. -/
def obsC2gtm : Observation := { markup := sl "googletagmanager.com/gtm.js?id=GTM-ABC9" }

/-- Markup with a bare Google Ads conversion id and nothing else. -/
def obsC2ads : Observation := { markup := sl "AW-123" }

/-- Empty observation for the Meta Pixel conjunct. -/
def obsC2meta : Observation := {}

/-- C2 counterexample: GA4 discovers the identifier `G-ABC123`, there is no
auxiliary confirmation (no gtag function) and no network confirmation, yet
the status is Connected, not Misconfigured. -/
theorem c2_counterexample :
    GA4.ga4IdsOf obsC2ga4 [] = [sl "G-ABC123"] ∧
    obsC2ga4.gtagDefined = false ∧ ga4NetOf obsC2ga4 = [] ∧
    (runGA4 obsC2ga4).status = TagStatus.CONNECTED ∧
    TagStatus.CONNECTED ≠ TagStatus.MISCONFIGURED :=
  ⟨by decide, by decide, by decide, by decide, by decide⟩

/-- C2 (amended): with identifiers found but no auxiliary signal and no
network confirmation, only Tag-Manager classifies as Misconfigured; GA4
classifies as Connected, Google Ads as Incomplete Setup, and the Meta Pixel
detector cannot discover identifiers at all without network entries. -/
theorem c2_state (o : Observation) (net : List Strg) :
    (net = [] → GTM.gtmIdsOf o net ≠ [] → GTM.hasDataLayer o = false →
       GTM.hasShopifyGtm o = false → GTM.hasWixGtm o = false →
       (detectGoogleTagManager o net).status = TagStatus.MISCONFIGURED) ∧
    (net = [] → GA4.ga4IdsOf o net ≠ [] →
       (detectGA4 o net).status = TagStatus.CONNECTED) ∧
    (net = [] → GAds.uniqueGadsIds o net ≠ [] → GAds.hasConversionEvent o = false →
       GAds.hasGoogleAdsGlobals o = false → GAds.hasGtagAds o = false →
       (detectGoogleAds o net).status = TagStatus.INCOMPLETE) ∧
    (net = [] → (detectMetaPixel o net).ids = []) := by
  refine ⟨?_, ?_, ?_, ?_⟩
  · rintro rfl hids hdl hsh hwx
    have hg : GTM.hasGtm o [] = true := by
      cases hg : GTM.hasGtm o [] with
      | true => rfl
      | false =>
        exfalso
        apply hids
        simp [GTM.gtmIdsOf, hg, hsh, hwx]
    have hact : GTM.hasGtmActivation o = false := by
      simp [GTM.hasGtmActivation, GTM.hasActiveDataLayer, hdl]
    have hie : (GTM.gtmIdsOf o []).isEmpty = false := by
      cases hh : GTM.gtmIdsOf o [] with
      | nil => exact absurd hh hids
      | cons a t => rfl
    have hne : sl "Misconfigured" ≠ sl "Connected" := by decide
    simp [detectGoogleTagManager, GTM.statusPair, GTM.mapStatus, hg, hact, hdl, hsh, hwx,
          hie, GTM.hasActiveDataLayer, GTM.mcIdsOf, GTM.hasGtmParams,
          GTM.hasDestinationRequest, hne]
  · rintro rfl hids
    have hie : (GA4.ga4IdsOf o []).isEmpty = false := by
      cases hh : GA4.ga4IdsOf o [] with
      | nil => exact absurd hh hids
      | cons a t => rfl
    cases hg : o.gtagDefined <;> simp [detectGA4, GA4.statusPair, GA4.mapStatus, hie, hg]
  · rintro rfl hids hconv hglob hgtag
    have hie : (GAds.uniqueGadsIds o []).isEmpty = false := by
      cases hh : GAds.uniqueGadsIds o [] with
      | nil => exact absurd hh hids
      | cons a t => rfl
    have hne : sl "Incomplete" ≠ sl "Not Found" := by decide
    have hne2 : sl "Incomplete" ≠ sl "Connected" := by decide
    have hne3 : sl "Incomplete" ≠ sl "Misconfigured" := by decide
    simp [detectGoogleAds, GAds.statusPair, GAds.mapStatus, GAds.isPresentB, hie,
          hconv, hglob, hgtag, hne, hne2, hne3]
  · rintro rfl
    simp [detectMetaPixel, Meta.pixelIds]

/-- C2 witness: each conjunct of the amended statement applies to a
concrete observation. -/
theorem c2_witness :
    GTM.gtmIdsOf obsC2gtm [] ≠ [] ∧
    (detectGoogleTagManager obsC2gtm []).status = TagStatus.MISCONFIGURED ∧
    GA4.ga4IdsOf obsC2ga4 [] ≠ [] ∧ (detectGA4 obsC2ga4 []).status = TagStatus.CONNECTED ∧
    GAds.uniqueGadsIds obsC2ads [] ≠ [] ∧
    (detectGoogleAds obsC2ads []).status = TagStatus.INCOMPLETE ∧
    (detectMetaPixel obsC2meta []).ids = [] :=
  ⟨by decide,
   (c2_state obsC2gtm []).1 rfl (by decide) (by decide) (by decide) (by decide),
   by decide, (c2_state obsC2ga4 []).2.1 rfl (by decide),
   by decide,
   (c2_state obsC2ads []).2.2.1 rfl (by decide) (by decide) (by decide) (by decide),
   (c2_state obsC2meta []).2.2.2 rfl⟩

/-- A page with the Google Ads conversion script but no conversion id. -/
def obsC3ads : Observation :=
  { scriptSrcs := [sl "https://www.googleadservices.com/pagead/conversion.js"] }

/-- C3: the Google Ads detector sets the internal status `Incomplete Setup`
for a present script without ids, but its result mapping only recognizes
`Incomplete`, so the result is status NotFound with isPresent still true —
violating the invariant `status = NotFound implies isPresent = false`. -/
theorem c3_incomplete_setup_falls_to_notfound :
    (runAds obsC3ads).isPresent = true ∧
    (runAds obsC3ads).status = TagStatus.NOT_FOUND ∧
    (GAds.statusPair obsC3ads (adsNetFull obsC3ads)).1 = sl "Incomplete Setup" :=
  ⟨by decide, by decide, by decide⟩

/-- Markup with a Meta Pixel queue marker and no digit anywhere. -/
def obsC4x : Observation := { markup := sl "fbq.queue.push" }

/-- C4 counterexample: empty networkEvents, empty queue, empty script
bodies, and markup free of any numeric pixel identifier, yet the Meta Pixel
result is isPresent true with status IncompleteSetup, not the claimed
`(false, NotFound, [])`, because a non-identifier marker substring makes the
technology present. -/
theorem c4_counterexample :
    obsC4x.networkEvents = [] ∧ obsC4x.dataLayer = none ∧ obsC4x.scriptBodies = [] ∧
    obsC4x.markup.all (fun c => !isDigitC c) = true ∧
    (runMeta obsC4x).isPresent = true ∧ (runMeta obsC4x).status = TagStatus.INCOMPLETE ∧
    TagStatus.INCOMPLETE ≠ TagStatus.NOT_FOUND :=
  ⟨rfl, rfl, rfl, by decide, by decide, by decide, by decide⟩

/-- C4 (amended): an Observation with no network events, no queue, no
script bodies or sources, no iframes, no matched selectors, no tracking
globals, and markup free of all four technologies marker substrings yields
exactly `(isPresent false, NotFound, no ids)` for every technology. -/
theorem c4_neutral_not_found (o : Observation)
    (hnet : o.networkEvents = []) (hdl : o.dataLayer = none)
    (hbody : o.scriptBodies = []) (hsrc : o.scriptSrcs = [])
    (hifr : o.iframeSrcs = []) (hsel : o.selectorHits = [])
    (hgtag : o.gtagDefined = false) (hfbq : o.fbqDefined = false)
    (hgc1 : o.googleTrackConversion = false) (hgc2 : o.googleConversionIdG = false)
    (hgc3 : o.googleConversionLabelG = false)
    (hgtp : o.googleTagParamsDefined = false) (hgtmg : o.googleTagManagerDefined = false)
    (hm1 : containsSub o.markup (sl "GTM-") = false)
    (hm2 : containsSub o.markup (sl "G-") = false)
    (hm3 : containsSub o.markup (sl "AW-") = false)
    (hm4 : containsSub o.markup (sl "conversion_id") = false)
    (hm5 : containsSub o.markup (sl "fbq") = false)
    (hm6 : containsSub o.markup (sl "facebook") = false) :
    ((runGtm o).isPresent = false ∧ (runGtm o).status = TagStatus.NOT_FOUND ∧
     (runGtm o).ids = [] ∧ (runGtm o).id = none) ∧
    ((runGA4 o).isPresent = false ∧ (runGA4 o).status = TagStatus.NOT_FOUND ∧
     (runGA4 o).ids = [] ∧ (runGA4 o).id = none) ∧
    ((runAds o).isPresent = false ∧ (runAds o).status = TagStatus.NOT_FOUND ∧
     (runAds o).ids = [] ∧ (runAds o).id = none) ∧
    ((runMeta o).isPresent = false ∧ (runMeta o).status = TagStatus.NOT_FOUND ∧
     (runMeta o).ids = [] ∧ (runMeta o).id = none) := by
  have hneC : sl "Not Found" ≠ sl "Connected" := by decide
  have hneM : sl "Not Found" ≠ sl "Misconfigured" := by decide
  have hneI : sl "Not Found" ≠ sl "Incomplete Setup" := by decide
  have hneI2 : sl "Not Found" ≠ sl "Incomplete" := by decide
  have hdle : dlEntries o = [] := by simp [dlEntries, hdl, JList.toList]
  have hselF : ∀ s, o.sel s = false := fun s => by simp [Observation.sel, hsel]
  have hga4net : ga4NetOf o = [] := by simp [ga4NetOf, hnet, dedupFirst, addAll]
  have hgtmnet : gtmNetOf o = [] := by simp [gtmNetOf, hnet, dedupFirst, addAll]
  have hadsnet : adsNetOf o = [] := by simp [adsNetOf, hnet, dedupFirst, addAll]
  have hmetanet : metaNetOf o = [] := by simp [metaNetOf, hnet, dedupFirst, addAll]
  have hmark318 : containsSub o.markup aw318 = false :=
    containsSub_false_of_not hm3 (by decide)
  have hadsfull : adsNetFull o = [] := by
    simp [adsNetFull, hadsnet, hdl, hgtp, hgtmg, hmark318]
  -- GTM flags
  have e1 : GTM.hasGtmScript o = false := by simp [GTM.hasGtmScript, hsrc, hifr, anyContains]
  have e2 : GTM.hasGtmInit o = false := by
    simp only [GTM.hasGtmInit]
    exact containsSub_false_of_not hm1 (by decide)
  have f_fn1 : containsSub o.markup
      (sl "(window,document,\x27script\x27,\x27dataLayer\x27,\x27GTM-") = false :=
    containsSub_false_of_not hm1 (by decide)
  have f_fn2 : containsSub o.markup
      (sl "(window,document,\"script\",\"dataLayer\",\"GTM-") = false :=
    containsSub_false_of_not hm1 (by decide)
  have e3 : GTM.hasGtmInitFunction o = false := by
    simp [GTM.hasGtmInitFunction, f_fn1, f_fn2]
  have hg : GTM.hasGtm o [] = false := by simp [GTM.hasGtm, e1, e2, e3]
  have hent : GTM.entries o = [] := by simp [GTM.entries, hdl, JList.toList]
  have hsh : GTM.hasShopifyGtm o = false := by
    simp [GTM.hasShopifyGtm, GTM.firstStyled, hent]
  have hwx : GTM.hasWixGtm o = false := by
    simp [GTM.hasWixGtm, GTM.firstStyled, hent]
  have hacd : GTM.hasActiveDataLayer o = false := by
    simp [GTM.hasActiveDataLayer, GTM.hasDataLayer, hdl]
  have hidsE : GTM.gtmIdsOf o [] = [] := by simp [GTM.gtmIdsOf, hg, hsh, hwx]
  -- GA4 flags
  have hscan_g : scanOne ga4Pat o.markup = [] := scanOne_nil_of_not_contains rfl hm2
  have f_cfg1 : containsSub o.markup (sl "gtag(\x27config\x27, \x27G-") = false :=
    containsSub_false_of_not hm2 (by decide)
  have f_cfg2 : containsSub o.markup (sl "gtag(\"config\", \"G-") = false :=
    containsSub_false_of_not hm2 (by decide)
  have f_dest : containsSub o.markup (sl "destination?id=G-") = false :=
    containsSub_false_of_not hm2 (by decide)
  have hga4s : GA4.hasGa4Script o = false := by
    simp [GA4.hasGa4Script, hsrc, anyContains, f_cfg1, f_cfg2, f_dest]
  have hga4gtm : GA4.hasGtm o = false := by simp [GA4.hasGtm, hsrc, anyContains, hm1]
  have hga4ids : GA4.ga4IdsOf o [] = [] := by
    simp [GA4.ga4IdsOf, hdle, hbody, hsrc, hscan_g, addAll]
  -- Google Ads flags
  have hscan_aw : scanMulti adsHtmlAlts o.markup = [] := by
    apply scanMulti_nil_of_not_contains
    intro a ha
    simp [adsHtmlAlts] at ha
    rcases ha with rfl | rfl
    · exact ⟨sl "AW-", [Tok.cls isWordDash 1 none], rfl, hm3⟩
    · exact ⟨sl "conversion_id",
        [Tok.cls isSpaceC 0 none, Tok.lit (sl "="), Tok.cls isSpaceC 0 none,
         Tok.cls isQuoteC 0 (some 1), Tok.cls isDigitC 1 none,
         Tok.cls isQuoteC 0 (some 1)], rfl, hm4⟩
  have e_hasgads : GAds.hasGads o = false := by simp [GAds.hasGads, hsrc, anyContains]
  have e_adsgtm : GAds.hasGtm o = false := by simp [GAds.hasGtm, hsrc, anyContains, hm1]
  have hadsids0 : GAds.gadsIdsPreDl o [] = [] := by
    simp [GAds.gadsIdsPreDl, hbody, hscan_aw]
  have hadsids : GAds.gadsIdsOf o [] = [] := by simp [GAds.gadsIdsOf, hdle, hadsids0]
  have hfdl : GAds.foundInDataLayer o [] = false := by
    simp [GAds.foundInDataLayer, hadsids, hadsids0]
  have huniq : GAds.uniqueGadsIds o [] = [] := by
    simp [GAds.uniqueGadsIds, hadsids, dedupFirst, addAll]
  have hpres : GAds.isPresentB o [] = false := by
    simp [GAds.isPresentB, huniq, e_hasgads, hfdl, GAds.hasGtagAds, hgtag,
          GAds.hasGoogleAdsGlobals, hgc1, hgc2, hgc3]
  -- Meta flags
  have f_fb1 : containsSub o.markup (sl "fbq(\"init\",") = false :=
    containsSub_false_of_not hm5 (by decide)
  have f_fb2 : containsSub o.markup (sl "fbq(\x27init\x27,") = false :=
    containsSub_false_of_not hm5 (by decide)
  have f_fb3 : containsSub o.markup (sl "fbq(\"set\",") = false :=
    containsSub_false_of_not hm5 (by decide)
  have f_fb4 : containsSub o.markup (sl "fbq(\x27set\x27,") = false :=
    containsSub_false_of_not hm5 (by decide)
  have f_fb5 : containsSub o.markup (sl "fbq.queue.push") = false :=
    containsSub_false_of_not hm5 (by decide)
  have f_fb6 : containsSub o.markup (sl "fbq.callMethod.apply") = false :=
    containsSub_false_of_not hm5 (by decide)
  have f_tr : containsSub o.markup (sl "facebook.com/tr?id=") = false :=
    containsSub_false_of_not hm6 (by decide)
  have hmfbqinit : Meta.hasFbqInit o = false := by
    simp [Meta.hasFbqInit, f_fb1, f_fb2, f_fb3, f_fb4, f_fb5, f_fb6]
  have hmetapix : Meta.hasMetaPixel o [] = false := by
    simp [Meta.hasMetaPixel, Meta.hasMetaPixelScript, Meta.hasFbqFunction, hfbq,
          hmfbqinit, Meta.hasFbqInDataLayer, hdle, Meta.hasTrackingImage, f_tr,
          Meta.hasFBConnect, hsrc, anyContains, hselF]
  have hmgtm : Meta.hasGtm o = false := by simp [Meta.hasGtm, hsrc, anyContains, hm1]
  refine ⟨?_, ?_, ?_, ?_⟩
  · rw [runGtm, hgtmnet]
    simp [detectGoogleTagManager, GTM.statusPair, GTM.mapStatus, hg, hsh, hwx, hacd,
          hidsE, GTM.mcIdsOf, GTM.hasGtmParams, GTM.hasDestinationRequest,
          hneC, hneM, hneI]
  · rw [runGA4, hga4net]
    simp [detectGA4, GA4.statusPair, GA4.mapStatus, hga4ids, hga4s, hga4gtm,
          hneC, hneM, hneI]
  · rw [runAds, hadsfull]
    simp [detectGoogleAds, GAds.statusPair, GAds.mapStatus, hpres, e_adsgtm, huniq,
          hneC, hneM, hneI2]
  · rw [runMeta, hmetanet]
    simp [detectMetaPixel, Meta.statusPair, Meta.mapStatus, Meta.pixelIds, hmetapix,
          hmgtm, hneC, hneM, hneI]

/-- The all-empty observation. -/
def obsC4w : Observation := {}

/-- C4 witness: the amended statement applies to the empty observation. -/
theorem c4_witness :
    (runGtm obsC4w).status = TagStatus.NOT_FOUND ∧
    (runGA4 obsC4w).status = TagStatus.NOT_FOUND ∧
    (runAds obsC4w).status = TagStatus.NOT_FOUND ∧
    (runMeta obsC4w).status = TagStatus.NOT_FOUND ∧
    (runGtm obsC4w).isPresent = false ∧ (runMeta obsC4w).ids = [] := by
  have h := c4_neutral_not_found obsC4w rfl rfl rfl rfl rfl rfl rfl rfl rfl rfl rfl rfl rfl
    (by decide) (by decide) (by decide) (by decide) (by decide) (by decide)
  exact ⟨h.1.2.1, h.2.1.2.1, h.2.2.1.2.1, h.2.2.2.2.1, h.1.1, h.2.2.2.2.2.1⟩

/-- C5: the classification call always yields a complete result list: four
entries in fixed technology order; a fault in one technology surfaces as
that technology catch-block Error result with its generic reason, while
each of the other entries is a function of its own fault flag only (the
GA4 slot is unchanged under arbitrary fault flags of the other three);
the assembled scan result carries exactly these tags. -/
theorem c5_fault_isolation (o : Observation) (f1 f2 f3 f4 g1 g3 g4 : Bool) :
    (detectTagsF o f1 f2 f3 f4).length = 4 ∧
    (detectTagsF o f1 f2 f3 f4).map TagResult.name =
      [TagType.googleTagManager, TagType.ga4, TagType.googleAds, TagType.metaPixel] ∧
    (detectTagsF o f1 f2 f3 f4)[0]? = some (if f1 then gtmErrorResult else runGtm o) ∧
    (detectTagsF o f1 f2 f3 f4)[1]? = some (if f2 then ga4ErrorResult else runGA4 o) ∧
    (detectTagsF o f1 f2 f3 f4)[2]? = some (if f3 then gadsErrorResult else runAds o) ∧
    (detectTagsF o f1 f2 f3 f4)[3]? = some (if f4 then metaErrorResult else runMeta o) ∧
    (detectTagsF o f1 f2 f3 f4)[1]? = (detectTagsF o g1 f2 g3 g4)[1]? ∧
    gtmErrorResult.status = TagStatus.ERROR ∧ ga4ErrorResult.status = TagStatus.ERROR ∧
    gadsErrorResult.status = TagStatus.ERROR ∧ metaErrorResult.status = TagStatus.ERROR ∧
    (assembleScanResult o true f1 f2 f3 f4).tags = detectTagsF o f1 f2 f3 f4 := by
  refine ⟨rfl, ?_, rfl, rfl, rfl, rfl, rfl, rfl, rfl, rfl, rfl, rfl⟩
  cases f1 <;> cases f2 <;> cases f3 <;> cases f4 <;> rfl

/-- The fixed Tag-Manager recommendation string. -/
def gtmRecStr : Strg :=
  sl "Implement Google Tag Manager to centralize all your marketing tags in one place"

/-- The GA4 recommendation string, phrased by GTM presence. -/
def ga4RecStr (hasGtm : Bool) : Strg :=
  (if hasGtm then sl "Add" else sl "Implement") ++
    sl " Google Analytics 4 to track website traffic and user behavior"

/-- The Meta Pixel recommendation string, phrased by GTM presence. -/
def metaRecStr (hasGtm : Bool) : Strg :=
  (if hasGtm then sl "Add" else sl "Implement") ++
    sl " Meta Pixel to track conversions from Facebook and Instagram ads"

/-- The Google Ads recommendation string, phrased by GTM presence. -/
def adsRecStr (hasGtm : Bool) : Strg :=
  (if hasGtm then sl "Add" else sl "Implement") ++
    sl " Google Ads conversion tracking to optimize your ad campaigns"

/-- C6: over one result per tracked technology, recommendation count plus
present count is exactly four; every emitted recommendation is phrased
`Add` when Tag-Manager is present and `Implement` otherwise; and a
technology recommendation is emitted exactly when that technology is
absent, regardless of its status. -/
theorem c6_recommendations (r1 r2 r3 r4 : TagResult)
    (h1 : r1.name = TagType.googleTagManager) (h2 : r2.name = TagType.ga4)
    (h3 : r3.name = TagType.googleAds) (h4 : r4.name = TagType.metaPixel) :
    (generateRecommendations [r1, r2, r3, r4]).length +
      [r1, r2, r3, r4].countP (fun t => t.isPresent) = 4 ∧
    (∀ s ∈ generateRecommendations [r1, r2, r3, r4],
      (if r1.isPresent then sl "Add" else sl "Implement").isPrefixOf s = true) ∧
    ((gtmRecStr ∈ generateRecommendations [r1, r2, r3, r4]) ↔ r1.isPresent = false) ∧
    ((ga4RecStr r1.isPresent ∈ generateRecommendations [r1, r2, r3, r4]) ↔
      r2.isPresent = false) ∧
    ((metaRecStr r1.isPresent ∈ generateRecommendations [r1, r2, r3, r4]) ↔
      r4.isPresent = false) ∧
    ((adsRecStr r1.isPresent ∈ generateRecommendations [r1, r2, r3, r4]) ↔
      r3.isPresent = false) := by
  cases hb1 : r1.isPresent <;> cases hb2 : r2.isPresent <;>
    cases hb3 : r3.isPresent <;> cases hb4 : r4.isPresent <;>
    simp [generateRecommendations, List.find?, List.countP_cons, h1, h2, h3, h4,
          hb1, hb2, hb3, hb4, gtmRecStr, ga4RecStr, metaRecStr, adsRecStr] <;>
    decide

def c6w1 : TagResult :=
  { name := TagType.googleTagManager, isPresent := false, status := TagStatus.NOT_FOUND }

def c6w2 : TagResult :=
  { name := TagType.ga4, isPresent := true, status := TagStatus.CONNECTED }

def c6w3 : TagResult :=
  { name := TagType.googleAds, isPresent := false, status := TagStatus.NOT_FOUND }

def c6w4 : TagResult :=
  { name := TagType.metaPixel, isPresent := false, status := TagStatus.NOT_FOUND }

/-- C6 witness: the count equation and the absence-membership equivalences
hold at a concrete result list. -/
theorem c6_witness :
    (generateRecommendations [c6w1, c6w2, c6w3, c6w4]).length +
      [c6w1, c6w2, c6w3, c6w4].countP (fun t => t.isPresent) = 4 ∧
    gtmRecStr ∈ generateRecommendations [c6w1, c6w2, c6w3, c6w4] ∧
    ¬ ga4RecStr c6w1.isPresent ∈ generateRecommendations [c6w1, c6w2, c6w3, c6w4] :=
  ⟨(c6_recommendations c6w1 c6w2 c6w3 c6w4 rfl rfl rfl rfl).1,
   (c6_recommendations c6w1 c6w2 c6w3 c6w4 rfl rfl rfl rfl).2.2.1.mpr rfl,
   fun h =>
     by cases (c6_recommendations c6w1 c6w2 c6w3 c6w4 rfl rfl rfl rfl).2.2.2.1.mp h⟩

/-- Markup and global giving Shopify a signature score of five. -/
def obsC7shop : Observation :=
  { shopifyDefined := true, markup := sl "x myshopify.com y" }

/-- C7 counterexample: a platform score of five does not yield confidence
0.95 — Shopify returns at its own threshold three with confidence 0.9. -/
theorem c7_counterexample :
    Cms.shopifyScore obsC7shop = 5 ∧
    detectCms obsC7shop = some ⟨sl "Shopify", 9/10⟩ ∧
    ((9 : ℚ)/10 ≠ 95/100) := by
  refine ⟨by decide, ?_, by norm_num⟩
  have h1 : Cms.wordpressScore obsC7shop = 0 := by decide
  have h2 : Cms.shopifyScore obsC7shop = 5 := by decide
  simp [detectCms, h1, h2]

/-- C7 (amended): only the WordPress block uses the high-confidence
threshold five with confidence 0.95; Shopify and Wix return as soon as
their scores reach three, with confidence 0.9, in fixed evaluation order
WordPress, Shopify, Wix. -/
theorem c7_threshold_behaviour (o : Observation) :
    (Cms.wordpressScore o ≥ 5 → detectCms o = some ⟨sl "WordPress", 95/100⟩) ∧
    (Cms.wordpressScore o < 5 → Cms.shopifyScore o ≥ 3 →
       detectCms o = some ⟨sl "Shopify", 9/10⟩) ∧
    (Cms.wordpressScore o < 5 → Cms.shopifyScore o < 3 → Cms.wixScore o ≥ 3 →
       detectCms o = some ⟨sl "Wix", 9/10⟩) := by
  refine ⟨?_, ?_, ?_⟩
  · intro h
    simp [detectCms, h]
  · intro h1 h2
    have hn : ¬ (Cms.wordpressScore o ≥ 5) := by omega
    simp [detectCms, hn, h2]
  · intro h1 h2 h3
    have hn : ¬ (Cms.wordpressScore o ≥ 5) := by omega
    have hn2 : ¬ (Cms.shopifyScore o ≥ 3) := by omega
    simp [detectCms, hn, hn2, h3]

/-- WordPress path markers plus the wp global: score five. -/
def obsC7wp : Observation := { wpDefined := true, markup := sl "/wp-content/" }

/-- A Wix session global: score three. -/
def obsC7wix : Observation := { wixBiSession := true }

/-- C7 witness: the three threshold branches apply to concrete pages. -/
theorem c7_witness :
    detectCms obsC7wp = some ⟨sl "WordPress", 95/100⟩ ∧
    detectCms obsC7shop = some ⟨sl "Shopify", 9/10⟩ ∧
    detectCms obsC7wix = some ⟨sl "Wix", 9/10⟩ :=
  ⟨(c7_threshold_behaviour obsC7wp).1 (by decide),
   (c7_threshold_behaviour obsC7shop).2.1 (by decide) (by decide),
   (c7_threshold_behaviour obsC7wix).2.2 (by decide) (by decide) (by decide)⟩

/-- A page whose inline script and markup carry a Social-Pixel init call
with the id 99999 and nothing else. -/
def obsC8meta : Observation :=
  { markup := sl "<script>fbq(\x27init\x27, \x2799999\x27);</script>",
    scriptBodies := [sl "fbq(\x27init\x27, \x2799999\x27);"] }

/-- C8 counterexample: an inline Social-Pixel init call with id 99999 and
no queue or network confirmation yields IncompleteSetup with no primaryId,
not Misconfigured with primaryId 99999 — the production detector extracts
no inline pixel ids at all. -/
theorem c8_counterexample :
    Meta.hasFbqInit obsC8meta = true ∧ metaNetOf obsC8meta = [] ∧
    obsC8meta.dataLayer = none ∧
    (runMeta obsC8meta).status = TagStatus.INCOMPLETE ∧
    (runMeta obsC8meta).id = none ∧
    (runMeta obsC8meta).status ≠ TagStatus.MISCONFIGURED :=
  ⟨by decide, by decide, rfl, by decide, by decide, by decide⟩

/-- C8 (amended): for every Observation whose markup contains a Social-Pixel
init/set/queue marker but whose network list is empty, the Meta Pixel result
is status IncompleteSetup with no primaryId. -/
theorem c8_inline_init_incomplete (o : Observation) (net : List Strg)
    (hnet : net = []) (hinit : Meta.hasFbqInit o = true) :
    (detectMetaPixel o net).status = TagStatus.INCOMPLETE ∧
    (detectMetaPixel o net).id = none := by
  subst hnet
  have hne : sl "Incomplete Setup" ≠ sl "Connected" := by decide
  have hne2 : sl "Incomplete Setup" ≠ sl "Misconfigured" := by decide
  simp [detectMetaPixel, Meta.statusPair, Meta.mapStatus, Meta.pixelIds,
        Meta.hasMetaPixel, hinit, hne, hne2]

/-- C8 witness: the amended statement applies to the init-call page. -/
theorem c8_witness :
    Meta.hasFbqInit obsC8meta = true ∧
    (detectMetaPixel obsC8meta []).status = TagStatus.INCOMPLETE ∧
    (detectMetaPixel obsC8meta []).id = none :=
  ⟨by decide,
   (c8_inline_init_incomplete obsC8meta [] rfl (by decide)).1,
   (c8_inline_init_incomplete obsC8meta [] rfl (by decide)).2⟩

/-- A dataLayer holding exactly one object entry with event `gtm.js`. -/
def dlC9 : JList :=
  JList.cons (JVal.obj (JEntries.cons (sl "event") (JVal.str (sl "gtm.js")) JEntries.nil))
    JList.nil

/-- The observation whose queue is that single activation entry. -/
def obsC9 : Observation := { dataLayer := some dlC9 }

/-- C9 counterexample: the single activation entry with no identifiers
anywhere yields isPresent true but status Connected, not IncompleteSetup —
the activation entry also matches the platform-templated pattern, which
forces Connected. -/
theorem c9_counterexample :
    obsC9.dataLayer = some dlC9 ∧ GTM.gtmIdsOf obsC9 (gtmNetOf obsC9) = [] ∧
    (runGtm obsC9).isPresent = true ∧ (runGtm obsC9).status = TagStatus.CONNECTED ∧
    (runGtm obsC9).status ≠ TagStatus.INCOMPLETE :=
  ⟨rfl, by decide, by decide, by decide, by decide⟩

/-- C9 (amended): for every Observation whose queue is the single object
entry with event `gtm.js`, no network entries and no collected identifiers,
the TagManager result has isPresent true and status Connected. -/
theorem c9_activation_entry_connected (o : Observation) (net : List Strg)
    (hnet : net = []) (hdl : o.dataLayer = some dlC9)
    (hids : GTM.gtmIdsOf o net = []) :
    (detectGoogleTagManager o net).isPresent = true ∧
    (detectGoogleTagManager o net).status = TagStatus.CONNECTED := by
  subst hnet
  have hent : GTM.entries o =
      [JVal.obj (JEntries.cons (sl "event") (JVal.str (sl "gtm.js")) JEntries.nil)] := by
    simp [GTM.entries, hdl, dlC9, JList.toList]
  have hsh : GTM.hasShopifyGtm o = true := by
    simp only [GTM.hasShopifyGtm, GTM.firstStyled, hent]
    decide
  have hdle : GTM.hasDataLayer o = true := by simp [GTM.hasDataLayer, hdl]
  have hacd : GTM.hasActiveDataLayer o = true := by
    simp [GTM.hasActiveDataLayer, hdle, hent]
  simp [detectGoogleTagManager, GTM.statusPair, GTM.mapStatus, hsh, hacd, hdle]

/-- C9 witness: the amended statement applies to the activation-entry page. -/
theorem c9_witness :
    (detectGoogleTagManager obsC9 []).isPresent = true ∧
    (detectGoogleTagManager obsC9 []).status = TagStatus.CONNECTED :=
  ⟨(c9_activation_entry_connected obsC9 [] rfl rfl (by decide)).1,
   (c9_activation_entry_connected obsC9 [] rfl rfl (by decide)).2⟩

/-- C10: every id in the Google Ads result list starts with `AW-`, and the
primaryId, whenever present, is one of them and starts with `AW-`: all
candidates not of that shape are filtered out before the result is built. -/
theorem c10_aw_invariant (o : Observation) (net : List Strg) :
    (∀ id ∈ (detectGoogleAds o net).ids, (sl "AW-").isPrefixOf id = true) ∧
    (∀ x, (detectGoogleAds o net).id = some x →
       (sl "AW-").isPrefixOf x = true ∧ x ∈ (detectGoogleAds o net).ids) := by
  have hids : (detectGoogleAds o net).ids = GAds.uniqueGadsIds o net := rfl
  have hid : (detectGoogleAds o net).id = (GAds.uniqueGadsIds o net).head? := rfl
  constructor
  · intro id hmem
    rw [hids] at hmem
    unfold GAds.uniqueGadsIds at hmem
    exact (List.mem_filter.mp hmem).2
  · intro x hx
    rw [hid] at hx
    have hmem : x ∈ GAds.uniqueGadsIds o net := by
      cases hl : GAds.uniqueGadsIds o net with
      | nil => rw [hl] at hx; cases hx
      | cons a t =>
        rw [hl] at hx
        simp at hx
        simp [hl, hx]
    refine ⟨?_, by rw [hids]; exact hmem⟩
    unfold GAds.uniqueGadsIds at hmem
    exact (List.mem_filter.mp hmem).2

/-- A page whose markup carries one conversion id. -/
def obsC10 : Observation := { markup := sl "AW-123" }

/-- C10 witness: the invariant applies to a page with a concrete id. -/
theorem c10_witness :
    (detectGoogleAds obsC10 []).ids = [sl "AW-123"] ∧
    (sl "AW-").isPrefixOf (sl "AW-123") = true :=
  ⟨by decide, (c10_aw_invariant obsC10 []).1 (sl "AW-123") (by decide)⟩
